import Mathlib

/-!
# TradeX-Chart demo harness: a shallow embedding

The demo page (`index.js`, `states.js`, `configs.js`) is embedded as pure
functions.  JavaScript numbers are modelled as exact rationals (`Num`):
comparisons, `Math.floor`, `%` and the arithmetic operators are the exact ones;
`NaN` and the infinities are not modelled.  Where a numerical bound depends on
the rounding of doubles (the price step of `Stream.ticker`), the operations are
rounded explicitly by `roundDouble`.  Timers are modelled by the
trace of events a polling function produces; `Math.random()` is a stream of
draws that is passed explicitly.
-/

namespace TradeX

/-- A JavaScript number, taken as an exact rational. -/
abbrev Num := ℚ

/-! ## JavaScript primitives used by the page -/

/-- ECMAScript `ToIntegerOrInfinity` on a finite number: truncation towards zero. -/
def toIntegerOrInfinity (x : Num) : Int :=
  if 0 ≤ x then Int.floor x else Int.ceil x

/-- Relative index of `Array.prototype.slice`: a negative index counts from the
end and is clamped at `0`, any other index is clamped at `len`. -/
def relativeIndex (len : Nat) (k : Int) : Nat :=
  if k < 0 then (Int.ofNat len + k).toNat else min k.toNat len

/-- The call `xs.slice(start, stop)`; `stop = none` is the one-argument call
`xs.slice(start)`.  The array `xs` is not modified, a new array is returned. -/
def slice {α : Type} (xs : List α) (start : Num) (stop : Option Num) : List α :=
  let len := xs.length
  let k := relativeIndex len (toIntegerOrInfinity start)
  let final :=
    match stop with
    | none => len
    | some e => relativeIndex len (toIntegerOrInfinity e)
  (xs.drop k).take (final - k)

/-- The expression `a || b` on an optional count: `undefined` and `0` are falsy. -/
def orElse (a : Option Nat) (b : Nat) : Nat :=
  match a with
  | none => b
  | some v => if v = 0 then b else v

/-! ## configs.js: the `configs` array -/

/-- One entry `{config, stream, description}` of `configs`; `config` is the name
of the configuration object the entry refers to, `stream` is `null` throughout. -/
structure ConfigEntry where
  config : String
  description : String
  deriving DecidableEq, Repr

/-- The array `configs` of configs.js (lines 601-636). -/
def configs : List ConfigEntry :=
  [ { config := "config1", description := "Basic Chart - Standard Config" },
    { config := "config2", description := "BTC/USDT - Basic Chart with Custom Theme" },
    { config := "config3", description := "Blue Theme - Custom Color Scheme" },
    { config := "config4", description := "FUN/USDT - Test State with Minimal Data" },
    { config := "config5", description := "ETH/USDT - Area Chart Style" },
    { config := "config6", description := "BTC/USDT 1H - Hourly Timeframe" },
    { config := "config7", description := "BTC/USDT 15M - Custom Range" },
    { config := "config8", description := "IMPT/USDT 1D - Daily Timeframe" },
    { config := "dre", description := "Advanced Trades Display" } ]

/-! ## index.js: `addChart`, the chart counter and the configuration it selects -/

/-- The part of `window` that `addChart` reads and writes before it selects a
configuration: `window.chartCount`, `undefined` until the first call. -/
structure Window where
  chartCount : Option Nat
  deriving DecidableEq, Repr

/-- The page as loaded: `window.chartCount` is not set. -/
def Window.initial : Window := { chartCount := none }

/-- What a call of `addChart` has done when it reaches line 285. -/
structure AddChartOutcome where
  window : Window
  chartNum : Nat
  configIndex : Option Nat
  selected : Option ConfigEntry
  deriving DecidableEq, Repr

/-- Lines 256-285 of `addChart`.  `chartNum = (window.chartCount || 0) + 1` is
stored back in `window.chartCount`; when the `main` element is missing the call
returns before a configuration is selected, otherwise
`configIndex = (chartNum - 1) % configs.length` and the entry at that index is
taken.  (`document.createElement` always returns an element.) -/
def addChart (mainPresent : Bool) (w : Window) : AddChartOutcome :=
  let chartNum := orElse w.chartCount 0 + 1
  let w1 : Window := { w with chartCount := some chartNum }
  if !mainPresent then
    { window := w1, chartNum := chartNum, configIndex := none, selected := none }
  else
    let configIndex := (chartNum - 1) % configs.length
    { window := w1, chartNum := chartNum, configIndex := some configIndex,
      selected := configs[configIndex]? }

/-- The window after `k` calls of `addChart` on the freshly loaded page. -/
def windowAfter (mainPresent : Bool) : Nat → Window
  | 0 => Window.initial
  | k + 1 => (addChart mainPresent (windowAfter mainPresent k)).window

/-- The `n`-th call of `addChart` (`n ≥ 1`) on the freshly loaded page. -/
def nthAddChart (mainPresent : Bool) (n : Nat) : AddChartOutcome :=
  addChart mainPresent (windowAfter mainPresent (n - 1))

/-! ## states.js: the split state `state1_5a` / `state1_5b` -/

/-- A row of numbers: a candle `[t, o, h, l, c, v]` or an indicator data point. -/
abbrev Row := List Num

/-- An indicator entry `{name, type, settings, data}` of a state. -/
structure Indicator where
  name : String
  type : String
  settings : List (String × Num)
  data : List Row
  deriving DecidableEq, Repr

/-- A chart state `{ohlcv, primary, secondary}`; `ohlcv` is absent in the object
literal `{primary:[], secondary:[]}`. -/
structure State where
  ohlcv : Option (List Row)
  primary : List Indicator
  secondary : List Indicator
  deriving DecidableEq, Repr

/-- The module bindings the block of states.js lines 15-41 reads and writes. -/
structure Bindings where
  state1 : State
  state1_5a : State
  state1_5b : State
  deriving DecidableEq, Repr

/-- The list `exclude` of states.js line 20. -/
def exclude : List String := ["trades", "events", "drawings", "annotations", "hiLo"]

/-- Lines 23-27 (and 33-37): the two halves `pra`, `prb` built from an entry `p`.
`prb = {...pra}` copies name, type and settings, then each gets its slice. -/
def splitEntry (p : Indicator) : Indicator × Indicator :=
  let l : Num := p.data.length
  let pra : Indicator := { name := p.name, type := p.type, settings := p.settings, data := [] }
  let prb : Indicator := { pra with }
  ({ pra with data := slice p.data 0 (some (l / 2)) },
   { prb with data := slice p.data (l / 2) none })

/-- One iteration of the loop over `state1.primary` (lines 21-30): an entry whose
type is in `exclude` is skipped, any other is split and pushed on both lists. -/
def primaryStep (acc : List Indicator × List Indicator) (p : Indicator) :
    List Indicator × List Indicator :=
  if exclude.contains p.type then acc
  else
    let pr := splitEntry p
    (acc.1 ++ [pr.1], acc.2 ++ [pr.2])

/-- One iteration of the loop over `state1.secondary` (lines 32-40). -/
def secondaryStep (acc : List Indicator × List Indicator) (p : Indicator) :
    List Indicator × List Indicator :=
  let pr := splitEntry p
  (acc.1 ++ [pr.1], acc.2 ++ [pr.2])

/-- The bindings `state1_5a`, `state1_5b` as declared on lines 13-14. -/
def emptySplit : State := { ohlcv := none, primary := [], secondary := [] }

/-- The module as it stands before the block runs, for an imported `state1`. -/
def Bindings.initial (state1 : State) : Bindings :=
  { state1 := state1, state1_5a := emptySplit, state1_5b := emptySplit }

/-- The block of states.js lines 15-41.  Reading `state1.ohlcv.length` on line 16
raises when `ohlcv` is absent (`none`); otherwise the two `ohlcv` slices are
stored, then the loops over `state1.primary` and `state1.secondary` push the
split entries.  `state1` is only read. -/
def buildSplit (b : Bindings) : Option Bindings :=
  match b.state1.ohlcv with
  | none => none
  | some candles =>
    let l : Num := candles.length
    let a0 : State := { b.state1_5a with ohlcv := some (slice candles 0 (some (l / 2))) }
    let b0 : State := { b.state1_5b with ohlcv := some (slice candles (l / 2) none) }
    let prim := b.state1.primary.foldl primaryStep (a0.primary, b0.primary)
    let sec := b.state1.secondary.foldl secondaryStep (a0.secondary, b0.secondary)
    some { state1 := b.state1,
           state1_5a := { a0 with primary := prim.1, secondary := sec.1 },
           state1_5b := { b0 with primary := prim.2, secondary := sec.2 } }

/-- A small `state1` with an odd number of candles, an excluded primary entry
and entries with odd and even data lengths. -/
def sampleState1 : State :=
  { ohlcv := some [[1, 10, 12, 9, 11, 5], [2, 11, 13, 10, 12, 6], [3, 12, 14, 11, 13, 7]],
    primary :=
      [ { name := "SMA, 5", type := "SMA", settings := [("timePeriod", 5)],
          data := [[1, 10], [2, 11], [3, 12]] },
        { name := "Trades", type := "trades", settings := [], data := [[1, 1]] },
        { name := "EMA, 25", type := "EMA", settings := [("timePeriod", 25)],
          data := [[1, 9], [2, 10]] } ],
    secondary :=
      [ { name := "RSI, 20", type := "RSI", settings := [("timePeriod", 20)],
          data := [[1, 50], [2, 51], [3, 52], [4, 53], [5, 54]] } ] }

/-- The name, type and settings of an entry. -/
def Indicator.header (p : Indicator) : String × String × List (String × Num) :=
  (p.name, p.type, p.settings)

/-! ## index.js: the synthetic tick/candle generator `Stream` -/

/-- The expression `a || b` on numbers: `0` is falsy. -/
def orNum (a b : Num) : Num := if a = 0 then b else a

/-- The operator `a % b` on numbers (`b ≠ 0`): the remainder of the truncated
division, with the sign of `a`. -/
def jsRem (a b : Num) : Num := a - b * (toIntegerOrInfinity (a / b) : Num)

/-- The function `getRandomInt(min, max)` (lines 507-509), `r` being the value
`Math.random()` returns: `r * (max - min) + min`. -/
def getRandomInt (min max r : Num) : Num := r * (max - min) + min

/-- The running candle, the array `[t, o, h, l, c, v]` (indices 0 to 5); also the
record `{t, o, h, l, c, v}` handed to `klineCb`. -/
structure Candle where
  t : Num
  o : Num
  h : Num
  l : Num
  c : Num
  v : Num
  deriving DecidableEq, Repr

/-- A tick `{t, p, q}` whose fields are numbers. -/
structure Tick where
  t : Num
  p : Num
  q : Num
  deriving DecidableEq, Repr

/-- The fields of a `Stream` instance.  `tick = none` is the initial
`{t: null, p: null, q: null}`; `volumeDiff` is the current
`chart.range.volumeDiff`; `tickerCb`, `klineCb` tell whether a callback is set. -/
structure Stream where
  tick : Option Tick
  candle : Candle
  interval : Num
  tfms : Num
  max : Num
  volumeDiff : Num
  tickerCb : Bool
  klineCb : Bool
  deriving DecidableEq, Repr

/-- What the constructor reads from the chart. -/
structure ChartFeed where
  rangeValue : Candle
  timeFrameMS : Num
  valueDiff : Num
  volumeDiff : Num
  deriving DecidableEq, Repr

/-- The constructor (lines 520-535), without the `setInterval` registration:
`max = r.valueDiff / (tfms / interval) || 1`.  With `timeFrameMS = 0` the
quotient `valueDiff / 0` is an infinity or `NaN` in the program; those are not
values of `Num`, and the model has no stream then.  (With `interval = 0` and
`timeFrameMS ≠ 0` the program divides by an infinity and gets `0`, as here.) -/
def Stream.new (chart : ChartFeed) (interval : Num) (tickerCb klineCb : Bool) :
    Option Stream :=
  if chart.timeFrameMS = 0 then none
  else
    some
      { tick := none,
        candle := chart.rangeValue,
        interval := interval,
        tfms := chart.timeFrameMS,
        max := orNum (chart.valueDiff / (chart.timeFrameMS / interval)) 1,
        volumeDiff := chart.volumeDiff,
        tickerCb := tickerCb,
        klineCb := klineCb }

/-- The getter `volumeInc` (lines 537-541); it consumes the draw `rnd i`. -/
def volumeInc (s : Stream) (rnd : Nat → Num) (i : Nat) : Num × Nat :=
  let max := orNum s.volumeDiff 1
  (getRandomInt 0 max (rnd i) / (s.tfms / s.interval), i + 1)

/-- The getter `priceInc` (lines 543-548); it consumes the draws `rnd i` (for
`factor2`) and `rnd (i + 1)` (for the size of the step). -/
def priceInc (s : Stream) (rnd : Nat → Num) (i : Nat) : Num × Nat :=
  let factor2 := jsRem (getRandomInt 0 10 (rnd i)) 2
  let sign : Num := if Int.floor factor2 = 1 then 1 else -1
  (getRandomInt 0 s.max (rnd (i + 1)) * sign, i + 2)

/-- What a call of `kline` has done: the new fields, the record passed to
`klineCb`, whether the branch of line 570 that opens a new candle was taken,
and the index of the next unused draw. -/
structure KlineResult where
  stream : Stream
  sent : Candle
  opened : Bool
  next : Nat
  deriving DecidableEq, Repr

/-- The body of `kline` (lines 565-583) when `this.tick` is the tick `k`. -/
def klineOn (s : Stream) (k : Tick) (rnd : Nat → Num) (i : Nat) : KlineResult :=
  let t := s.candle.t
  let c := s.candle
  let p := k.p
  if k.t - t ≥ s.tfms then
    let t1 := k.t - jsRem k.t s.tfms
    let vi := volumeInc s rnd i
    let c1 : Candle := { t := t1, o := p, h := p, l := p, c := p, v := vi.1 }
    { stream := { s with candle := c1 },
      sent := { t := t1, o := c1.o, h := c1.h, l := c1.l, c := c1.c, v := c1.v },
      opened := true, next := vi.2 }
  else
    let c2 : Candle := { c with h := if c.h < p then p else c.h }
    let c3 : Candle := { c2 with l := if c2.l > p then p else c2.l }
    let c4 : Candle := { c3 with c := p }
    let c5 : Candle := { c4 with v := c4.v + k.q }
    { stream := { s with candle := c5 },
      sent := { t := t, o := c5.o, h := c5.h, l := c5.l, c := c5.c, v := c5.v },
      opened := false, next := i }

/-- The method `kline`.  It is only called from `ticker`, after `this.tick` has
been assigned a tick with numeric fields; on the initial null tick the model has
no value. -/
def kline (s : Stream) (rnd : Nat → Num) (i : Nat) : Option KlineResult :=
  s.tick.map (fun k => klineOn s k rnd i)

/-- A callback invocation made by `ticker`. -/
inductive StreamEvent where
  | tickerCb (tick : Tick)
  | klineCb (candle : Candle)
  deriving DecidableEq, Repr

/-- What a call of `ticker` has done. -/
structure TickerResult where
  stream : Stream
  tick : Tick
  events : List StreamEvent
  next : Nat
  deriving DecidableEq, Repr

/-- The method `ticker` (lines 550-563).  `now` is the value of `Date.now()`,
`rnd i`, `rnd (i + 1)`, ... are the successive values of `Math.random()`.  The
getter `priceInc` is read a second time, with fresh draws, when the first price
is negative.  The value assigned to `this.tick.q` on line 554 is replaced on
line 559 before it is read, so it does not appear here.  The arithmetic is
exact; `tickerPriceFl` gives the price with the rounding of doubles. -/
def ticker (s : Stream) (now : Num) (rnd : Nat → Num) (i : Nat) : TickerResult :=
  let t0 := match s.tick with
    | none => orNum s.candle.t now
    | some k => orNum (orNum k.t s.candle.t) now
  let p0 := match s.tick with
    | none => orNum s.candle.c 1
    | some k => orNum (orNum k.p s.candle.c) 1
  let inc1 := priceInc s rnd i
  let price := p0 + inc1.1
  let second := priceInc s rnd inc1.2
  let price1 := if price < 0 then |second.1| else price
  let i1 := if price < 0 then second.2 else inc1.2
  let time := t0 + s.interval
  let vi := volumeInc s rnd i1
  let tick : Tick := { t := time, p := price1, q := vi.1 }
  let s1 : Stream := { s with tick := some tick }
  let ev1 := if s.tickerCb then [StreamEvent.tickerCb tick] else []
  if s.klineCb then
    let r := klineOn s1 tick rnd vi.2
    { stream := r.stream, tick := tick, events := ev1 ++ [StreamEvent.klineCb r.sent],
      next := r.next }
  else
    { stream := s1, tick := tick, events := ev1, next := vi.2 }

/-- A stream with `tfms = 10` whose running candle `[5, 1, 2, 1, 2, 7]` was
opened at the unaligned time `5`, holding the tick `(12, 3, 1)`. -/
def sampleStream : Stream :=
  { tick := some { t := 12, p := 3, q := 1 },
    candle := { t := 5, o := 1, h := 2, l := 1, c := 2, v := 7 },
    interval := 1, tfms := 10, max := 1 / 2, volumeDiff := 4,
    tickerCb := true, klineCb := true }

/-- A stream with `tfms = 10` whose running candle was opened at `10`. -/
def alignedStream : Stream :=
  { tick := some { t := 19, p := 3, q := 1 },
    candle := { t := 10, o := 1, h := 2, l := 1, c := 2, v := 7 },
    interval := 1, tfms := 10, max := 1 / 2, volumeDiff := 4,
    tickerCb := true, klineCb := true }

/-- A stream with step bound `max = 1/2` whose previous tick price is `1/4`. -/
def walkStream : Stream :=
  { tick := some { t := 100, p := 1 / 4, q := 1 },
    candle := { t := 100, o := 1, h := 2, l := 1, c := 1 / 4, v := 7 },
    interval := 1, tfms := 10, max := 1 / 2, volumeDiff := 4,
    tickerCb := true, klineCb := true }

/-- Draws of `Math.random()`: `0` (the sign is `-1`), then `1/2` (the step is
`max / 2`), then `0`. -/
def walkDraws (j : Nat) : Num := if j = 1 then 1 / 2 else 0

/-! ## index.js: what the readiness checks read of a chart -/

/-- What the checks read of a property that may hold an array: a falsy value
(absent, `undefined`, `null`), a truthy value that is not an array, or an array
of a given length. -/
inductive ArrayProp where
  | absent
  | notArray
  | array (length : Nat)
  deriving DecidableEq, Repr

/-- The test `v && Array.isArray(v) && v.length > 0`. -/
def ArrayProp.nonEmpty : ArrayProp → Bool
  | .array n => decide (n > 0)
  | _ => false

/-- The length of an array value (`0` for the others, where it is never read
after `nonEmpty` has failed). -/
def ArrayProp.length : ArrayProp → Nat
  | .array n => n
  | _ => 0

/-- The outcome of the call `chart.range.value()`. -/
inductive CallResult where
  | raises
  | returns (v : ArrayProp)
  deriving DecidableEq, Repr

/-- The object `chart.range`: `value = none` when `chart.range.value` is not a
function. -/
structure RangeSnap where
  value : Option CallResult
  deriving DecidableEq, Repr

/-- The object `chart.state`. -/
structure StateSnap where
  ohlcv : ArrayProp
  deriving DecidableEq, Repr

/-- What `querySelector('canvas')` and `querySelector('svg')` find in a tree. -/
structure Dom where
  canvas : Bool
  svg : Bool
  deriving DecidableEq, Repr

/-- A snapshot of the `tradex-chart` element at one turn of the event loop.  The
chart is an element, so `chart.querySelector` is always a function; `light` is
what it finds, `shadowRoot` is `none` when the element has no shadow root. -/
structure ChartSnap where
  state : Option StateSnap
  range : Option RangeSnap
  ohlcv : ArrayProp
  shadowRoot : Option Dom
  light : Dom
  deriving DecidableEq, Repr

/-- The function `isChartDataReady(chart)` (lines 716-722); `none` is a falsy
`chart`. -/
def isChartDataReady (chart : Option ChartSnap) : Bool :=
  match chart with
  | none => false
  | some c =>
    match c.state with
    | none => false
    | some st =>
      match st.ohlcv with
      | .absent => false
      | .notArray => false
      | .array n => if n = 0 then false else true

/-! ## index.js: `waitForChartReady` -/

/-- What `waitForChartReady` and the timer callbacks it registers do, in order. -/
inductive PollEvent where
  | check (attempt : Nat)
  | callback (attempt : Nat)
  | timeoutError (maxAttempts : Nat)
  | schedule (delay : Nat)
  deriving DecidableEq, Repr

/-- The value a call returns and the events of the call and of every timer
callback that follows from it. -/
structure WaitResult where
  returned : Bool
  trace : List PollEvent
  deriving DecidableEq, Repr

/-- The function `waitForChartReady(chart, callback, maxAttempts, attempt)` (lines
727-743).  `chart k` is the chart as the call with `attempt = k` sees it.
`timeoutError n` is the call of `DIAGNOSTICS.error` with the text
"Chart ready check timeout after n attempts"; `schedule 100` is the
`setTimeout(..., 100)` whose callback makes the next call, the value that call
returns is dropped. -/
def waitForChartReady (chart : Nat → Option ChartSnap) (maxAttempts attempt : Nat) :
    WaitResult :=
  if attempt ≥ maxAttempts then
    { returned := false, trace := [PollEvent.timeoutError maxAttempts] }
  else if isChartDataReady (chart attempt) then
    { returned := true, trace := [PollEvent.check attempt, PollEvent.callback attempt] }
  else
    { returned := false,
      trace := PollEvent.check attempt :: PollEvent.schedule 100 ::
        (waitForChartReady chart maxAttempts (attempt + 1)).trace }
termination_by maxAttempts - attempt
decreasing_by omega

/-- The polls that find the chart not ready, `attempt = a, ..., a + n - 1`, each
followed by the registration of the next one. -/
def notReadyPolls (a : Nat) : Nat → List PollEvent
  | 0 => []
  | n + 1 => PollEvent.check a :: PollEvent.schedule 100 :: notReadyPolls (a + 1) n

/-- Tells a `callback` event. -/
def PollEvent.isCallback : PollEvent → Bool
  | .callback _ => true
  | _ => false

/-- Tells a `check` event. -/
def PollEvent.isCheck : PollEvent → Bool
  | .check _ => true
  | _ => false

/-- Tells a `timeoutError` event. -/
def PollEvent.isTimeout : PollEvent → Bool
  | .timeoutError _ => true
  | _ => false

/-! ## index.js: `checkChartData` inside `addChart` -/

/-- The result of the final comprehensive check (lines 363-406). -/
structure FinalCheck where
  chartHasData : Bool
  dataCount : Nat
  dataLocation : String
  deriving DecidableEq, Repr

/-- The expression `hasRenderedContent` (lines 397-400), as a truth value. -/
def hasRenderedContent (chart : ChartSnap) : Bool :=
  (match chart.shadowRoot with | some d => d.canvas | none => false) || chart.light.canvas ||
  (match chart.shadowRoot with | some d => d.svg | none => false) || chart.light.svg

/-- The test on `chart.state.ohlcv` of lines 369 and 431. -/
def stateHasData (chart : ChartSnap) : Bool :=
  match chart.state with
  | some st => st.ohlcv.nonEmpty
  | none => false

/-- The `if` / `else if` chain of lines 364-406. -/
def finalCheck (chart : ChartSnap) : FinalCheck :=
  let none_ : FinalCheck := { chartHasData := false, dataCount := 0, dataLocation := "none" }
  if stateHasData chart then
    { chartHasData := true,
      dataCount := (match chart.state with | some st => st.ohlcv.length | none => 0),
      dataLocation := "chart.state.ohlcv" }
  else
    match chart.range.bind (fun r => r.value) with
    | some call =>
      match call with
      | .returns rangeValue =>
        if rangeValue.nonEmpty then
          { chartHasData := true, dataCount := rangeValue.length,
            dataLocation := "chart.range.value()" }
        else none_
      | .raises => none_
    | none =>
      if chart.ohlcv.nonEmpty then
        { chartHasData := true, dataCount := chart.ohlcv.length, dataLocation := "chart.ohlcv" }
      else if hasRenderedContent chart then
        { chartHasData := true, dataCount := 0, dataLocation := "rendered content detected" }
      else none_

/-- The expression `hasData` of the timer callback (lines 430-442). -/
def pollHasData (chart : ChartSnap) : Bool :=
  stateHasData chart || chart.ohlcv.nonEmpty ||
  (match chart.range.bind (fun r => r.value) with
   | some (.returns val) => val.nonEmpty
   | some .raises => false
   | none => false)

/-- What `checkChartData` and its timer callbacks do, in order: a
`setTimeout(..., delay)`, the evaluation of `hasData` in a timer callback at a
turn, the log of the data points found, the final check with its result, and
after a final check without data the warning "may have data loading issues"
and the call of `DIAGNOSTICS.log` with the diagnostic info. -/
inductive CheckEvent where
  | schedule (delay : Nat)
  | poll (turn : Nat) (hasData : Bool)
  | logDataPoints
  | final (result : FinalCheck)
  | logHasData (dataCount : Nat) (dataLocation : String)
  | warnLoadingIssues
  | logDiagnosticInfo
  deriving DecidableEq, Repr

/-- The branch `attempts <= 0` of `checkChartData` (lines 362-426). -/
def finalBranch (chart : ChartSnap) : List CheckEvent :=
  let r := finalCheck chart
  if r.chartHasData then
    [CheckEvent.final r, CheckEvent.logHasData r.dataCount r.dataLocation]
  else
    [CheckEvent.final r, CheckEvent.warnLoadingIssues, CheckEvent.logDiagnosticInfo]

/-- The function `checkChartData(attempts, delay)` (lines 361-461), called at the
turn `now` of the event loop; `chart k` is the chart at turn `k`.  The timer
callback runs at the next turn, and the retry `checkChartData(attempts - 1,
delay)` is called from inside that callback, at the same turn. -/
def checkChartData (chart : Nat → ChartSnap) (delay : Nat) : (attempts now : Nat) →
    List CheckEvent
  | 0, now => finalBranch (chart now)
  | attempts + 1, now =>
    if pollHasData (chart (now + 1)) then
      [CheckEvent.schedule delay, CheckEvent.poll (now + 1) true, CheckEvent.logDataPoints]
    else
      CheckEvent.schedule delay :: CheckEvent.poll (now + 1) false ::
        checkChartData chart delay attempts (now + 1)

/-- The call `checkChartData()` of line 464, with the defaults `attempts = 15`
and `delay = 400`. -/
def checkChartDataDefault (chart : Nat → ChartSnap) (now : Nat) : List CheckEvent :=
  checkChartData chart 400 15 now

/-- The polls that find no data at the turns `now + 1, ..., now + n`. -/
def failedPolls (delay : Nat) (now : Nat) : Nat → List CheckEvent
  | 0 => []
  | n + 1 => CheckEvent.schedule delay :: CheckEvent.poll (now + 1) false ::
      failedPolls delay (now + 1) n

/-- Tells a `poll` event. -/
def CheckEvent.isPoll : CheckEvent → Bool
  | .poll _ _ => true
  | _ => false

/-- Tells a `schedule` event. -/
def CheckEvent.isSchedule : CheckEvent → Bool
  | .schedule _ => true
  | _ => false

/-- Tells a `final` event. -/
def CheckEvent.isFinal : CheckEvent → Bool
  | .final _ => true
  | _ => false

/-- At least one of the data locations holds data: `chart.state.ohlcv` is a
non-empty array, `chart.range.value()` returns one, `chart.ohlcv` is one, or a
rendered `canvas` / `svg` element exists. -/
def holdsData (chart : ChartSnap) : Bool :=
  stateHasData chart ||
  (match chart.range.bind (fun r => r.value) with
   | some (.returns val) => val.nonEmpty
   | some .raises => false
   | none => false) ||
  chart.ohlcv.nonEmpty || hasRenderedContent chart

/-- A chart whose `state.ohlcv` is still empty and whose `range.value()` returns
an empty array, while its canvases are rendered in the shadow root. -/
def renderedNoRange : ChartSnap :=
  { state := some { ohlcv := .array 0 },
    range := some { value := some (.returns (.array 0)) },
    ohlcv := .absent,
    shadowRoot := some { canvas := true, svg := false },
    light := { canvas := false, svg := false } }

/-- A chart that holds three candles in `chart.ohlcv` only, while
`range.value()` raises. -/
def ohlcvOnly : ChartSnap :=
  { state := none,
    range := some { value := some .raises },
    ohlcv := .array 3,
    shadowRoot := none,
    light := { canvas := false, svg := false } }

/-- A chart whose state holds two candles. -/
def readyChart : ChartSnap :=
  { state := some { ohlcv := .array 2 },
    range := none,
    ohlcv := .absent,
    shadowRoot := none,
    light := { canvas := false, svg := false } }

/-- A chart without data anywhere. -/
def blankChart : ChartSnap :=
  { state := none, range := none, ohlcv := .absent, shadowRoot := none,
    light := { canvas := false, svg := false } }

/-! ## JavaScript values read by the configuration and real-time code -/

/-- A JavaScript value, as far as the page inspects it: an object is the list of
its own enumerable properties, a function is opaque. -/
inductive JSVal where
  | undefined
  | null
  | bool (b : Bool)
  | num (n : Num)
  | str (s : String)
  | func
  | array (items : List JSVal)
  | object (fields : List (String × JSVal))

/-- Truthiness (`ToBoolean`): `undefined`, `null`, `false`, `0` and the empty
string are falsy. -/
def JSVal.truthy : JSVal → Bool
  | .undefined => false
  | .null => false
  | .bool b => b
  | .num n => decide (n ≠ 0)
  | .str s => decide (s ≠ "")
  | .func => true
  | .array _ => true
  | .object _ => true

/-- The function `Array.isArray`. -/
def JSVal.isArray : JSVal → Bool
  | .array _ => true
  | _ => false

/-- The property `length` of an array (`0` on the other values, where the page
does not read it). -/
def JSVal.arrayLength : JSVal → Nat
  | .array items => items.length
  | _ => 0

/-- The test `typeof v === 'object' && v !== null`. -/
def JSVal.isObjectNotNull : JSVal → Bool
  | .array _ => true
  | .object _ => true
  | _ => false

/-- The test `typeof v === 'object'` (true of `null` too). -/
def JSVal.typeofObject : JSVal → Bool
  | .null => true
  | v => v.isObjectNotNull

/-- The own property `key` of a value, for the keys `state`, `ohlcv`, `primary`
and `message` that no built-in prototype defines: the value stored in an object,
`undefined` on every other value. -/
def JSVal.get (v : JSVal) (key : String) : JSVal :=
  match v with
  | .object fields => (fields.lookup key).getD .undefined
  | _ => .undefined

/-- The number of entries of `Object.keys(v)` for an object or an array. -/
def JSVal.keysLength : JSVal → Nat
  | .object fields => fields.length
  | .array items => items.length
  | _ => 0

/-- The array `Object.values(v)` for an object or an array. -/
def JSVal.values : JSVal → List JSVal
  | .object fields => fields.map (fun f => f.2)
  | .array items => items
  | _ => []

/-! ## index.js: `configHasState` and the refresh delay in `addChart` -/

/-- The callback of the inner `some` (lines 326-329). -/
def nestedHasData (v : JSVal) : Bool :=
  (v.isArray && decide (v.arrayLength > 0)) ||
  (v.isObjectNotNull && decide (v.keysLength > 0))

/-- The callback of the outer `some` (lines 322-332). -/
def valueHasData (value : JSVal) : Bool :=
  if value.isArray then decide (value.arrayLength > 0)
  else if value.isObjectNotNull then value.values.any nestedHasData
  else false

/-- The variable `configHasState` as lines 299-339 of `addChart` leave it, for the
selected `config` (a truthy value). -/
def configHasState (config : JSVal) : Bool :=
  let state := config.get "state"
  if state.truthy then
    let ohlcv := state.get "ohlcv"
    let primary := state.get "primary"
    if ohlcv.truthy && ohlcv.isArray && decide (ohlcv.arrayLength > 0) then true
    else if primary.truthy && primary.isArray && decide (primary.arrayLength > 0) then true
    else if state.typeofObject then
      if state.keysLength = 0 then false
      else state.values.any valueHasData
    else false
  else false

/-- The constant `refreshDelay` of line 351. -/
def refreshDelay (config : JSVal) : Nat :=
  if configHasState config then 500 else 100

/-- A config in the normal format: its state holds one candle. -/
def configWithOhlcv : JSVal :=
  .object [("title", .str "BTC/USDT"),
           ("state", .object [("ohlcv", .array [.array [.num 1, .num 2, .num 3, .num 1, .num 2, .num 5]])])]

/-- A config whose state has an empty `ohlcv` and one primary entry. -/
def configWithPrimary : JSVal :=
  .object [("state", .object [("ohlcv", .array []),
                              ("primary", .array [.object [("type", .str "trades")]])])]

/-- A config with `state: {}`, as `config3` and `config5`. -/
def configEmptyState : JSVal :=
  .object [("title", .str "Blue"), ("state", .object [])]

/-! ## index.js: the chart registry written by `addChart` -/

/-- The part of `window` that `addChart` writes: `window.chartCount` and the
registry `window["chart" + k]`; `charts k = some c` says that the key
`"chart" + k` holds the chart element created by the call numbered `c`. -/
structure Registry where
  window : Window
  charts : Nat → Option Nat

/-- The page as loaded: no counter, no chart registered. -/
def Registry.initial : Registry := { window := Window.initial, charts := fun _ => none }

/-- Lines 256-479 of `addChart`, as far as they write `window`.  The counter is
stored first.  The call returns without registering when `main` is missing
(line 267) or when `chart.start(config)` raises (`startRaises`, line 475);
otherwise line 479 stores the chart under `"chart" + (chartNum - 1)`.  Every
entry of `configs` has a truthy `config`, so the return of line 289 is not taken. -/
def addChartRegister (mainPresent startRaises : Bool) (r : Registry) : Registry :=
  let out := addChart mainPresent r.window
  match out.selected with
  | none => { window := out.window, charts := r.charts }
  | some _ =>
    if startRaises then { window := out.window, charts := r.charts }
    else
      { window := out.window,
        charts := fun k => if k = out.chartNum - 1 then some out.chartNum else r.charts k }

/-- The registry after a sequence of `addChart` calls on the freshly loaded page;
the `i`-th entry of `raises` tells whether `chart.start` raises in the `i`-th call. -/
def registryAfter (mainPresent : Bool) (raises : List Bool) : Registry :=
  raises.foldl (fun r sr => addChartRegister mainPresent sr r) Registry.initial

/-! ## index.js: the real-time data switch -/

/-- The outcome of a call into the chart library: it raises or returns a value. -/
inductive Outcome where
  | raises
  | returns (v : JSVal)

/-- The object `chart0.state.dataSource` at the time of a call: what
`startTickerHistory(...)` does and whether `stopTicker()` raises. -/
structure DataSourceSnap where
  startTickerHistory : Outcome
  stopTickerRaises : Bool

/-- The object `chart0.state`; `dataSource = none` when the property is falsy. -/
structure Chart0State where
  dataSource : Option DataSourceSnap

/-- The element `window.chart0` at the time of a call; `state = none` when
`chart0.state` is falsy, `onRaises` tells whether `chart0.on(...)` raises. -/
structure Chart0Snap where
  state : Option Chart0State
  onRaises : Bool

/-- The module variables `realtimeDataEnabled` and `realtimeDataTicker`. -/
structure Realtime where
  realtimeDataEnabled : Bool
  realtimeDataTicker : JSVal

/-- Lines 979-980: real-time data is disabled, the ticker reference is `null`. -/
def Realtime.initial : Realtime :=
  { realtimeDataEnabled := false, realtimeDataTicker := .null }

/-- The function `window.getRealTimeDataStatus` (line 1097). -/
def getRealTimeDataStatus (s : Realtime) : Bool := s.realtimeDataEnabled

/-- The calls `enableRealTimeData` and `disableRealTimeData` make, in order: the
`DIAGNOSTICS` entries with their text, the assignment of
`state1.dataSource.source.rangeLimitFuture`, and the calls of
`startTickerHistory`, `chart0.on` and `stopTicker`. -/
inductive RtEvent where
  | warn (message : String)
  | log (message : String)
  | checkpoint (message : String)
  | error (message : String)
  | setRangeLimitFuture
  | startTickerHistory
  | listen (event : String)
  | stopTicker
  deriving DecidableEq, Repr

/-- What a call of `enableRealTimeData` has done. -/
structure EnableResult where
  state : Realtime
  returned : Bool
  events : List RtEvent

/-- The function `enableRealTimeData` (lines 987-1057).  `chart0` is
`window.chart0` (`none` when falsy), `state1HasSource` the test
`state1.dataSource && state1.dataSource.source`.  Whatever raises inside the
`try` is caught on line 1052, so every path returns a boolean. -/
def enableRealTimeData (state1HasSource : Bool) (chart0 : Option Chart0Snap) (s : Realtime) :
    EnableResult :=
  match chart0 with
  | none =>
    { state := s, returned := false,
      events := [RtEvent.warn "chart0 not available for real-time data setup"] }
  | some c =>
    if s.realtimeDataEnabled then
      { state := s, returned := true,
        events := [RtEvent.log "Real-time data is already enabled"] }
    else
      let ev0 := RtEvent.checkpoint "Enabling real-time data source" ::
        (if state1HasSource then [RtEvent.setRangeLimitFuture] else [])
      match c.state.bind (fun st => st.dataSource) with
      | none =>
        { state := s, returned := false,
          events := ev0 ++ [RtEvent.error "chart0.state.dataSource is not available"] }
      | some ds =>
        match ds.startTickerHistory with
        | .raises =>
          { state := s, returned := false,
            events := ev0 ++ [RtEvent.startTickerHistory,
              RtEvent.error "Failed to enable real-time data source"] }
        | .returns ticker =>
          let s1 : Realtime := { s with realtimeDataTicker := ticker }
          if c.onRaises then
            { state := s1, returned := false,
              events := ev0 ++ [RtEvent.startTickerHistory, RtEvent.listen "range_limitFuture",
                RtEvent.error "Failed to enable real-time data source"] }
          else
            { state := { s1 with realtimeDataEnabled := true }, returned := true,
              events := ev0 ++ [RtEvent.startTickerHistory, RtEvent.listen "range_limitFuture",
                RtEvent.checkpoint "Real-time data source enabled for chart0"] }

/-- What a call of `disableRealTimeData` has done. -/
structure DisableResult where
  state : Realtime
  events : List RtEvent

/-- The function `disableRealTimeData` (lines 1064-1092).  `stopTicker()` is
called only when `window.chart0.state.dataSource` is present and the stored
ticker reference is truthy; when it raises, the reference is not reset. -/
def disableRealTimeData (chart0 : Option Chart0Snap) (s : Realtime) : DisableResult :=
  if !s.realtimeDataEnabled then
    { state := s, events := [RtEvent.log "Real-time data is already disabled"] }
  else
    let dataSource := (chart0.bind (fun c => c.state)).bind (fun st => st.dataSource)
    let stopped : Realtime × List RtEvent :=
      match dataSource with
      | some ds =>
        if s.realtimeDataTicker.truthy then
          if ds.stopTickerRaises then
            (s, [RtEvent.stopTicker, RtEvent.error "Error stopping ticker"])
          else
            ({ s with realtimeDataTicker := .null }, [RtEvent.stopTicker])
        else (s, [])
      | none => (s, [])
    { state := { stopped.1 with realtimeDataEnabled := false },
      events := RtEvent.checkpoint "Disabling real-time data source" :: stopped.2 ++
        [RtEvent.checkpoint "Real-time data source disabled"] }

/-- The page state that the three operations share. -/
structure Page where
  registry : Registry
  realtime : Realtime

/-- The page as loaded. -/
def Page.initial : Page := { registry := Registry.initial, realtime := Realtime.initial }

/-- A call of one of the operations, with what the environment does during it. -/
inductive PageOp where
  | addChart (startRaises : Bool)
  | enableRealTimeData (state1HasSource : Bool) (chart0 : Chart0Snap)
  | disableRealTimeData (chart0 : Chart0Snap)

/-- The value of `window.chart0`: present once `addChart` has registered it. -/
def Page.chart0 (p : Page) (snap : Chart0Snap) : Option Chart0Snap :=
  if (p.registry.charts 0).isSome then some snap else none

/-- The page after one operation. -/
def Page.step (mainPresent : Bool) (op : PageOp) (p : Page) : Page :=
  match op with
  | .addChart sr => { p with registry := addChartRegister mainPresent sr p.registry }
  | .enableRealTimeData src c =>
    { p with realtime := (enableRealTimeData src (p.chart0 c) p.realtime).state }
  | .disableRealTimeData c =>
    { p with realtime := (disableRealTimeData (p.chart0 c) p.realtime).state }

/-- The page after a sequence of operations on the freshly loaded page. -/
def Page.run (mainPresent : Bool) (ops : List PageOp) : Page :=
  ops.foldl (fun p op => Page.step mainPresent op p) Page.initial

/-- A chart whose data source starts a ticker and returns a handle. -/
def liveChart0 : Chart0Snap :=
  { state := some { dataSource := some { startTickerHistory := .returns (.object []),
                                         stopTickerRaises := false } },
    onRaises := false }

/-- A chart whose `startTickerHistory` returns `undefined`. -/
def silentChart0 : Chart0Snap :=
  { state := some { dataSource := some { startTickerHistory := .returns .undefined,
                                         stopTickerRaises := false } },
    onRaises := false }

/-- A chart whose `stopTicker()` raises. -/
def stuckChart0 : Chart0Snap :=
  { state := some { dataSource := some { startTickerHistory := .returns (.object []),
                                         stopTickerRaises := true } },
    onRaises := false }

/-- A chart that has been restarted with a state without data source. -/
def bareChart0 : Chart0Snap := { state := none, onRaises := false }

/-- Real-time data enabled, with a ticker handle stored. -/
def enabledRealtime : Realtime :=
  { realtimeDataEnabled := true, realtimeDataTicker := .object [] }

/-! ## index.js: the range-limit callbacks installed by `enableRealTimeData` -/

/-- The state a promise settles in. -/
inductive Settled where
  | resolved (value : JSVal)
  | rejected (reason : JSVal)

/-- The `TypeError` raised by reading a property of `undefined` or `null`. -/
def typeError : JSVal :=
  .object [("name", .str "TypeError"), ("message", .str "Cannot read properties")]

/-- The expression `err.message`: it raises on `undefined` and `null`. -/
def readMessage (err : JSVal) : Except JSVal JSVal :=
  match err with
  | .undefined => .error typeError
  | .null => .error typeError
  | v => .ok (v.get "message")

/-- The arrow function given to `.catch` on lines 1006-1009 and 1017-1020: it
passes `err.message` to `console.warn` and returns `{ ohlcv: [] }`. -/
def fallbackHandler (err : JSVal) : Except JSVal JSVal :=
  match readMessage err with
  | .error e => .error e
  | .ok _ => .ok (.object [("ohlcv", .array [])])

/-- The promise `p.catch(handler)` for a handler that returns a plain value or
raises. -/
def Settled.catch (p : Settled) (handler : JSVal → Except JSVal JSVal) : Settled :=
  match p with
  | .resolved v => .resolved v
  | .rejected r =>
    match handler r with
    | .ok v => .resolved v
    | .error e => .rejected e

/-- The callback `rangeLimitPast` (lines 1016-1021); `fetched` is how the promise
returned by `onRangeLimit2(e, sym, tf, ts, "past")` settles. -/
def rangeLimitPast (fetched : Settled) : Settled := fetched.catch fallbackHandler

/-- The callback `rangeLimitFuture` (lines 1005-1010); `fetched` is how the
promise returned by `onRangeLimit2(e, sym, tf, ts, "future")` settles. -/
def rangeLimitFuture (fetched : Settled) : Settled := fetched.catch fallbackHandler

/-- An `Error` object as a failed fetch rejects with. -/
def networkError : JSVal :=
  .object [("name", .str "TypeError"), ("message", .str "Failed to fetch")]

/-! ## index.js: the Apply button of the control panel -/

/-- The names of the properties every object literal inherits from
`Object.prototype`. -/
def objectPrototypeNames : List String :=
  ["constructor", "hasOwnProperty", "isPrototypeOf", "propertyIsEnumerable", "toLocaleString",
   "toString", "valueOf", "__proto__", "__defineGetter__", "__defineSetter__",
   "__lookupGetter__", "__lookupSetter__"]

/-- The expression `obj[name]` on an object literal with the own properties
`fields`: the own property when there is one, else the property inherited from
`Object.prototype` (a function, or the prototype object for `__proto__`), else
`undefined`. -/
def lookupProp (fields : List (String × JSVal)) (name : String) : JSVal :=
  match fields.lookup name with
  | some v => v
  | none =>
    if objectPrototypeNames.contains name then
      (if name = "__proto__" then JSVal.object [] else JSVal.func)
    else JSVal.undefined

/-- The own enumerable properties that `{...v}` copies: those of an object, none
of a function. -/
def JSVal.spread : JSVal → List (String × JSVal)
  | .object fields => fields
  | _ => []

/-- A property written in an object literal after a spread: it replaces the
copied property of that name in place, or is added at the end. -/
def setField (fields : List (String × JSVal)) (key : String) (v : JSVal) :
    List (String × JSVal) :=
  if fields.any (fun f => f.1 == key) then
    fields.map (fun f => if f.1 == key then (key, v) else f)
  else fields ++ [(key, v)]

/-- The object `newConfig` of lines 1256-1261: `{...config, state, talib, wasm}`. -/
def newConfigOf (config state talib wasm : JSVal) : JSVal :=
  .object (setField (setField (setField config.spread "state" state) "talib" talib) "wasm" wasm)

/-- The imported state and configuration objects, each by its own properties. -/
structure Fixtures where
  state1 : List (String × JSVal)
  state2 : List (String × JSVal)
  state3 : List (String × JSVal)
  config1 : List (String × JSVal)
  config2 : List (String × JSVal)
  config3 : List (String × JSVal)
  config4 : List (String × JSVal)
  config5 : List (String × JSVal)
  config6 : List (String × JSVal)
  config7 : List (String × JSVal)
  config8 : List (String × JSVal)
  dre : List (String × JSVal)

/-- The object `states` of line 1122. -/
def Fixtures.states (f : Fixtures) : List (String × JSVal) :=
  [("state1", .object f.state1), ("state2", .object f.state2), ("state3", .object f.state3)]

/-- The object `cfgs` of line 1123. -/
def Fixtures.cfgs (f : Fixtures) : List (String × JSVal) :=
  [("config1", .object f.config1), ("config2", .object f.config2),
   ("config3", .object f.config3), ("config4", .object f.config4),
   ("config5", .object f.config5), ("config6", .object f.config6),
   ("config7", .object f.config7), ("config8", .object f.config8),
   ("dre", .object f.dre)]

/-- The names under which `states` holds a state. -/
def stateNames : List String := ["state1", "state2", "state3"]

/-- The names under which `cfgs` holds a configuration. -/
def configNames : List String :=
  ["config1", "config2", "config3", "config4", "config5", "config6", "config7", "config8", "dre"]

/-- The expression `select?.value || fallback`: `none` is a missing selector. -/
def selectedName (value : Option String) (fallback : String) : String :=
  match value with
  | none => fallback
  | some s => if s = "" then fallback else s

/-- What the click handler does, in order: the calls of `updateStatus` (which
sets the status indicator when its elements exist), `chart0.start(newConfig)`
and `chart0.refresh()`. -/
inductive PanelEvent where
  | updateStatus (state message : String)
  | start (newConfig : JSVal)
  | refresh

/-- Tells a call of `chart0.start`. -/
def PanelEvent.isStart : PanelEvent → Bool
  | .start _ => true
  | _ => false

/-- What a click on the Apply button has done: the events, and the objects
`cfgs` and `states` as they stand afterwards; the handler only reads them. -/
structure ApplyResult where
  events : List PanelEvent
  cfgs : List (String × JSVal)
  states : List (String × JSVal)

/-- The click handler of the Apply button (lines 1238-1307), up to the
registration of the timer that resets the status.  `stateValue` and
`configValue` are the values of the two selectors, `startRaises` and
`refreshRaises` tell whether the chart calls raise (they are caught on line
1293). -/
def applyConfig (f : Fixtures) (talib wasm : JSVal) (stateValue configValue : Option String)
    (startRaises refreshRaises : Bool) : ApplyResult :=
  let selectedState := selectedName stateValue "state1"
  let selectedConfig := selectedName configValue "config1"
  let state := lookupProp f.states selectedState
  let config := lookupProp f.cfgs selectedConfig
  let body : List PanelEvent :=
    if state.truthy && config.truthy then
      let newConfig := newConfigOf config state talib wasm
      if startRaises then
        [PanelEvent.start newConfig, PanelEvent.updateStatus "error" "Error occurred"]
      else if refreshRaises then
        [PanelEvent.start newConfig, PanelEvent.refresh,
         PanelEvent.updateStatus "error" "Error occurred"]
      else
        [PanelEvent.start newConfig, PanelEvent.refresh,
         PanelEvent.updateStatus "success" "Applied successfully"]
    else
      [PanelEvent.updateStatus "error" "Config not found"]
  { events := PanelEvent.updateStatus "loading" "Applying..." :: body,
    cfgs := f.cfgs, states := f.states }

/-- Small fixtures: every state and configuration has one property. -/
def sampleFixtures : Fixtures :=
  { state1 := [("ohlcv", .array [])], state2 := [("ohlcv", .array [])],
    state3 := [("ohlcv", .array [])],
    config1 := [("title", .str "one"), ("state", .object [])],
    config2 := [("title", .str "two")], config3 := [("title", .str "three")],
    config4 := [("title", .str "four")], config5 := [("title", .str "five")],
    config6 := [("title", .str "six")], config7 := [("title", .str "seven")],
    config8 := [("title", .str "eight")], dre := [("title", .str "dre")] }

/-! ## index.js: `DIAGNOSTICS.log` -/

/-- The second argument of `DIAGNOSTICS.log` as the page passes it: a string, or
an object literal with the given data properties (lines 414-423). -/
inductive LogType where
  | text (s : String)
  | record (keys : List String)
  deriving DecidableEq, Repr

/-- The fields of `DIAGNOSTICS` that `log` reads and writes; each list holds the
`(time, message)` entries pushed so far, `console` the lines written with the
console method used. -/
structure Diagnostics where
  enabled : Bool
  checkpoints : List (String × String)
  errors : List (String × String)
  warnings : List (String × String)
  console : List (String × String)
  deriving DecidableEq, Repr

/-- The object `DIAGNOSTICS` as declared (lines 32-38). -/
def Diagnostics.initial : Diagnostics :=
  { enabled := true, checkpoints := [], errors := [], warnings := [], console := [] }

/-- The state a logging call leaves and the exception it raised, if any. -/
structure LogRun where
  diag : Diagnostics
  raised : Option String
  deriving DecidableEq, Repr

/-- The call `type.toUpperCase()`: a string has the method, an object literal
with data properties has not, and calling `undefined` raises a `TypeError`. -/
def toUpperCase (type : LogType) : Except String String :=
  match type with
  | .text s => .ok s.toUpper
  | .record _ => .error "TypeError: type.toUpperCase is not a function"

/-- The method `DIAGNOSTICS.log(message, type)` (lines 40-62); `timestamp` is the
formatted elapsed time. -/
def Diagnostics.log (d : Diagnostics) (timestamp message : String) (type : LogType) : LogRun :=
  if !d.enabled then { diag := d, raised := none }
  else
    match toUpperCase type with
    | .error e => { diag := d, raised := some e }
    | .ok upper =>
      let logEntry := "[" ++ timestamp ++ "] [" ++ upper ++ "] " ++ message
      match type with
      | .text "error" =>
        { diag := { d with console := d.console ++ [("error", logEntry)],
                           errors := d.errors ++ [(timestamp, message)] },
          raised := none }
      | .text "warn" =>
        { diag := { d with console := d.console ++ [("warn", logEntry)],
                           warnings := d.warnings ++ [(timestamp, message)] },
          raised := none }
      | .text "checkpoint" =>
        { diag := { d with console := d.console ++ [("log", "✅ " ++ logEntry)],
                           checkpoints := d.checkpoints ++ [(timestamp, message)] },
          raised := none }
      | _ => { diag := { d with console := d.console ++ [("log", logEntry)] }, raised := none }

/-- The method `DIAGNOSTICS.warn(message)` (lines 81-83). -/
def Diagnostics.warn (d : Diagnostics) (timestamp message : String) : LogRun :=
  d.log timestamp message (.text "warn")

/-- The keys of the object literal passed on lines 414-423. -/
def diagnosticInfoKeys : List String :=
  ["hasState", "stateKeys", "hasOhlcv", "ohlcvLength", "chartHasState", "chartStateKeys",
   "chartHasRange", "chartHasOhlcv"]

/-- The logging of the final check (lines 408-425) for chart number `chartNum`
with the description `description` (`'unknown'` when falsy): one `log` with the
default type when the chart has data, else `warn` followed by
`DIAGNOSTICS.log(message, { ... })`, the object literal standing where `log`
takes its type. -/
def finalBranchLog (d : Diagnostics) (timestamp : String) (chartNum : Nat)
    (description : String) (chart : ChartSnap) : LogRun :=
  let r := finalCheck chart
  if r.chartHasData then
    d.log timestamp ("Chart " ++ toString chartNum ++ " has data: " ++ toString r.dataCount ++
      " points at " ++ r.dataLocation) (.text "info")
  else
    let w := d.warn timestamp ("Chart " ++ toString chartNum ++
      " may have data loading issues. Config: " ++
      (if description = "" then "unknown" else description))
    match w.raised with
    | some e => { diag := w.diag, raised := some e }
    | none =>
      w.diag.log timestamp ("Chart " ++ toString chartNum ++ " diagnostic info:")
        (.record diagnosticInfoKeys)

/-! ## Double arithmetic: the price step of `Stream.ticker` with rounding -/

/-- Rounding to the nearest integer, a tie going to the even one. -/
def roundHalfEven (q : Num) : Int :=
  let f := Int.floor q
  let r := q - (f : Num)
  if r < 1 / 2 then f
  else if 1 / 2 < r then f + 1
  else if f % 2 = 0 then f else f + 1

/-- Rounding of the exact result of an arithmetic operation to the nearest
double (IEEE 754 binary64, round to nearest, ties to even): a significand of 53
bits at the binary exponent of `x`.  The exponent range is taken as unbounded:
overflow to infinity and the subnormal numbers are not modelled. -/
def roundDouble (x : Num) : Num :=
  if x = 0 then 0
  else
    let e := Int.log 2 |x|
    let ulp : Num := (2 : Num) ^ (e - 52)
    ulp * (roundHalfEven (x / ulp) : Num)

/-- The function `getRandomInt(min, max)` (lines 507-509) with each of its three
operations rounded by `fl`: `fl (fl (r * fl (max - min)) + min)`. -/
def getRandomIntFl (fl : Num → Num) (min max r : Num) : Num :=
  fl (fl (r * fl (max - min)) + min)

/-- The getter `priceInc` (lines 543-548) with the operations of `getRandomInt`
rounded by `fl`; `%`, `Math.floor` and the product with the sign `1` or `-1` are
exact on doubles. -/
def priceIncFl (fl : Num → Num) (s : Stream) (rnd : Nat → Num) (i : Nat) : Num × Nat :=
  let factor2 := jsRem (getRandomIntFl fl 0 10 (rnd i)) 2
  let sign : Num := if Int.floor factor2 = 1 then 1 else -1
  (getRandomIntFl fl 0 s.max (rnd (i + 1)) * sign, i + 2)

/-- The price of the tick that `ticker` produces (lines 553, 556 and 557), with
the addition `this.tick.p + this.priceInc` and the operations of `priceInc`
rounded by `fl`; `Math.abs` and the comparison with `0` are exact.  With
`fl = roundDouble` this is the program's double arithmetic, with `fl = id` the
exact arithmetic of `ticker`. -/
def tickerPriceFl (fl : Num → Num) (s : Stream) (rnd : Nat → Num) (i : Nat) : Num :=
  let p0 := match s.tick with
    | none => orNum s.candle.c 1
    | some k => orNum (orNum k.p s.candle.c) 1
  let inc1 := priceIncFl fl s rnd i
  let price := fl (p0 + inc1.1)
  let second := priceIncFl fl s rnd inc1.2
  if price < 0 then |second.1| else price

/-- A stream with step bound `max = 3/2` whose previous tick price is `2 ^ 53`,
where neighbouring doubles are 2 apart. -/
def bigStream : Stream :=
  { tick := some { t := 100, p := 9007199254740992, q := 1 },
    candle := { t := 100, o := 1, h := 2, l := 1, c := 9007199254740992, v := 7 },
    interval := 1, tfms := 10, max := 3 / 2, volumeDiff := 4,
    tickerCb := true, klineCb := true }

/-- Draws of `Math.random()`: `1/8` (the sign is `1`), then `15/16` (the step is
`45/32`). -/
def bigDraws (j : Nat) : Num := if j = 0 then 1 / 8 else 15 / 16

/-! ## Theorems -/

/-! ### `slice` -/

theorem toIntegerOrInfinity_half (l : Nat) :
    toIntegerOrInfinity ((l : Num) / 2) = ((l / 2 : Nat) : Int) := by
  have h0 : (0 : Num) ≤ (l : Num) / 2 := by positivity
  have h : ((l : Num) / 2) = ((l : ℚ) / ((2 : Nat) : ℚ)) := by norm_num
  unfold toIntegerOrInfinity
  rw [if_pos h0, h, Rat.floor_natCast_div_natCast]
  simp

theorem toIntegerOrInfinity_zero : toIntegerOrInfinity 0 = 0 := by
  simp [toIntegerOrInfinity]

theorem relativeIndex_ofNat (len k : Nat) : relativeIndex len (k : Int) = min k len := by
  simp [relativeIndex]

/-- The call `xs.slice(0, l/2)` with `l = xs.length` is the first `⌊l/2⌋` elements. -/
theorem slice_front_half {α : Type} (xs : List α) :
    slice xs 0 (some ((xs.length : Num) / 2)) = xs.take (xs.length / 2) := by
  unfold slice
  simp only [toIntegerOrInfinity_zero, toIntegerOrInfinity_half]
  have h : relativeIndex xs.length 0 = 0 := by simp [relativeIndex]
  rw [h, relativeIndex_ofNat]
  simp

/-- The call `xs.slice(l/2)` with `l = xs.length` drops the first `⌊l/2⌋` elements. -/
theorem slice_back_half {α : Type} (xs : List α) :
    slice xs ((xs.length : Num) / 2) none = xs.drop (xs.length / 2) := by
  unfold slice
  simp only [toIntegerOrInfinity_half, relativeIndex_ofNat]
  have h : min (xs.length / 2) xs.length = xs.length / 2 :=
    Nat.min_eq_left (Nat.div_le_self _ _)
  rw [h]
  apply List.take_of_length_le
  simp

/-! ### `addChart`: configuration cycling -/

theorem windowAfter_chartCount (m : Bool) (k : Nat) :
    orElse (windowAfter m k).chartCount 0 = k := by
  induction k with
  | zero => rfl
  | succ k ih =>
    simp only [windowAfter, addChart, ih]
    cases m <;> simp [orElse]

theorem nthAddChart_chartNum (m : Bool) (n : Nat) (hn : 1 ≤ n) :
    (nthAddChart m n).chartNum = n := by
  unfold nthAddChart addChart
  rw [windowAfter_chartCount]
  cases m <;> simp <;> omega

/-- C1 as stated fails on a page without a `main` element: the first call of
`addChart` sets `window.chartCount` to 1 and returns on line 267 before any
configuration is selected, although `configs[0]` exists. -/
theorem addChart_no_main_counterexample :
    (nthAddChart false 1).window.chartCount = some 1 ∧
    (nthAddChart false 1).configIndex = none ∧
    (nthAddChart false 1).selected = none ∧
    configs[(1 - 1) % 9]? =
      some { config := "config1", description := "Basic Chart - Standard Config" } := by
  decide

/-- C1, amended: on the freshly loaded page the `n`-th call of `addChart`
(`n ≥ 1`) sets `window.chartCount` to `n`; when the page has its `main` element
it selects `configs[(n - 1) % 9]`, and when it has none the call returns on
line 267 and selects nothing; the index is a valid index of the 9-entry
`configs` array, so the entry exists, and call `n + 9` selects the same entry. -/
theorem addChart_config_cycling (m : Bool) (n : Nat) (hn : 1 ≤ n) :
    (nthAddChart m n).window.chartCount = some n ∧
    (nthAddChart m n).configIndex = (if m then some ((n - 1) % 9) else none) ∧
    (nthAddChart m n).selected = (if m then configs[(n - 1) % 9]? else none) ∧
    configs.length = 9 ∧ (n - 1) % 9 < configs.length ∧
    (∃ e, configs[(n - 1) % 9]? = some e) ∧
    (nthAddChart m (n + 9)).selected = (nthAddChart m n).selected := by
  have hlen : configs.length = 9 := rfl
  have hlt : (n - 1) % 9 < configs.length := by rw [hlen]; exact Nat.mod_lt _ (by decide)
  have key : ∀ k, 1 ≤ k → (nthAddChart m k).window.chartCount = some k ∧
      (nthAddChart m k).configIndex = (if m then some ((k - 1) % 9) else none) ∧
      (nthAddChart m k).selected = (if m then configs[(k - 1) % 9]? else none) := by
    intro k hk
    have h := nthAddChart_chartNum m k hk
    unfold nthAddChart addChart at h ⊢
    cases m
    · simp only [Bool.not_false, if_true] at h ⊢
      rw [h]
      exact ⟨rfl, rfl, rfl⟩
    · simp only [Bool.not_true, Bool.false_eq_true, if_false] at h ⊢
      rw [h, hlen]
      exact ⟨rfl, rfl, rfl⟩
  obtain ⟨h1, h2, h3⟩ := key n hn
  obtain ⟨_, _, h3'⟩ := key (n + 9) (by omega)
  refine ⟨h1, h2, h3, hlen, hlt, ⟨configs[(n - 1) % 9], List.getElem?_eq_getElem hlt⟩, ?_⟩
  rw [h3, h3']
  have : (n + 9 - 1) % 9 = (n - 1) % 9 := by omega
  rw [this]

/-- C1, at the tenth call on a page with a `main` element: it selects the first
entry again, as the nineteenth call does. -/
theorem addChart_config_cycling_witness :
    (1 ≤ 10) ∧ (nthAddChart true 10).configIndex = some 0 ∧
    (nthAddChart true 19).selected = (nthAddChart true 10).selected :=
  ⟨by decide, (addChart_config_cycling true 10 (by decide)).2.1,
    (addChart_config_cycling true 10 (by decide)).2.2.2.2.2.2⟩

/-! ### states.js: the split of `state1` -/

theorem foldl_primaryStep (ps : List Indicator) (acc : List Indicator × List Indicator) :
    ps.foldl primaryStep acc =
      (acc.1 ++ (ps.filter (fun p => !exclude.contains p.type)).map (fun p => (splitEntry p).1),
       acc.2 ++ (ps.filter (fun p => !exclude.contains p.type)).map (fun p => (splitEntry p).2)) := by
  induction ps generalizing acc with
  | nil => simp
  | cons p ps ih =>
    rw [List.foldl_cons, ih]
    by_cases h : p.type ∈ exclude
    · simp [primaryStep, h, List.filter_cons]
    · simp [primaryStep, h, List.filter_cons]

theorem foldl_secondaryStep (ps : List Indicator) (acc : List Indicator × List Indicator) :
    ps.foldl secondaryStep acc =
      (acc.1 ++ ps.map (fun p => (splitEntry p).1),
       acc.2 ++ ps.map (fun p => (splitEntry p).2)) := by
  induction ps generalizing acc with
  | nil => simp
  | cons p ps ih =>
    rw [List.foldl_cons, ih]
    simp [secondaryStep]

theorem splitEntry_fst (p : Indicator) :
    (splitEntry p).1 = { p with data := p.data.take (p.data.length / 2) } := by
  simp [splitEntry, slice_front_half]

theorem splitEntry_snd (p : Indicator) :
    (splitEntry p).2 = { p with data := p.data.drop (p.data.length / 2) } := by
  simp [splitEntry, slice_back_half]

theorem zipWith_split_data (ps : List Indicator) :
    List.zipWith (fun x y => x.data ++ y.data)
      (ps.map (fun p => (splitEntry p).1)) (ps.map (fun p => (splitEntry p).2))
      = ps.map (fun p => p.data) := by
  induction ps with
  | nil => rfl
  | cons p ps ih =>
    simp only [List.map_cons, List.zipWith_cons_cons, ih]
    rw [splitEntry_fst, splitEntry_snd]
    simp

/-- C2: when `state1.ohlcv` is a list of `l` candles, the block returns bindings
in which `state1_5a.ohlcv` is the first `⌊l/2⌋` candles, `state1_5b.ohlcv` is the
remaining ones, the two concatenate to `state1.ohlcv`, and `state1` is unchanged. -/
theorem split_ohlcv (state1 : State) (candles : List Row)
    (h : state1.ohlcv = some candles) :
    ∃ b, buildSplit (Bindings.initial state1) = some b ∧
      b.state1_5a.ohlcv = some (candles.take (candles.length / 2)) ∧
      b.state1_5b.ohlcv = some (candles.drop (candles.length / 2)) ∧
      candles.take (candles.length / 2) ++ candles.drop (candles.length / 2) = candles ∧
      b.state1 = state1 := by
  refine ⟨_, by simp only [buildSplit, Bindings.initial, h]; rfl, ?_, ?_, ?_, rfl⟩
  · simp [slice_front_half]
  · simp [slice_back_half]
  · exact List.take_append_drop _ _

/-- C2, on a sample state with three candles: one candle in 5a, two in 5b. -/
theorem split_ohlcv_witness :
    ∃ b, buildSplit (Bindings.initial sampleState1) = some b ∧
      b.state1_5a.ohlcv = some [[1, 10, 12, 9, 11, 5]] ∧
      b.state1_5b.ohlcv = some [[2, 11, 13, 10, 12, 6], [3, 12, 14, 11, 13, 7]] := by
  obtain ⟨b, hb, ha, hb2, _, _⟩ := split_ohlcv sampleState1 _ rfl
  exact ⟨b, hb, ha, hb2⟩

theorem map_header_split_fst (ps : List Indicator) :
    (ps.map (fun p => (splitEntry p).1)).map Indicator.header = ps.map Indicator.header := by
  simp [List.map_map, Function.comp_def, splitEntry_fst, Indicator.header]

theorem map_header_split_snd (ps : List Indicator) :
    (ps.map (fun p => (splitEntry p).2)).map Indicator.header = ps.map Indicator.header := by
  simp [List.map_map, Function.comp_def, splitEntry_snd, Indicator.header]

theorem foldl_primaryStep_nil (ps : List Indicator) :
    ps.foldl primaryStep ([], []) =
      ((ps.filter (fun p => !exclude.contains p.type)).map
          (fun p => { p with data := p.data.take (p.data.length / 2) }),
       (ps.filter (fun p => !exclude.contains p.type)).map
          (fun p => { p with data := p.data.drop (p.data.length / 2) })) := by
  rw [foldl_primaryStep]
  simp only [List.nil_append]
  congr 1
  · exact List.map_congr_left (fun p _ => splitEntry_fst p)
  · exact List.map_congr_left (fun p _ => splitEntry_snd p)

theorem foldl_secondaryStep_nil (ps : List Indicator) :
    ps.foldl secondaryStep ([], []) =
      (ps.map (fun p => { p with data := p.data.take (p.data.length / 2) }),
       ps.map (fun p => { p with data := p.data.drop (p.data.length / 2) })) := by
  rw [foldl_secondaryStep]
  simp only [List.nil_append]
  congr 1
  · exact List.map_congr_left (fun p _ => splitEntry_fst p)
  · exact List.map_congr_left (fun p _ => splitEntry_snd p)

theorem map_header_halves (ps : List Indicator) :
    (ps.map (fun p => { p with data := p.data.take (p.data.length / 2) })).map Indicator.header =
      ps.map Indicator.header ∧
    (ps.map (fun p => { p with data := p.data.drop (p.data.length / 2) })).map Indicator.header =
      ps.map Indicator.header ∧
    List.zipWith (fun x y => x.data ++ y.data)
      (ps.map (fun p => { p with data := p.data.take (p.data.length / 2) }))
      (ps.map (fun p => { p with data := p.data.drop (p.data.length / 2) })) =
      ps.map (fun p => p.data) := by
  refine ⟨?_, ?_, ?_⟩
  · simp [List.map_map, Function.comp_def, Indicator.header]
  · simp [List.map_map, Function.comp_def, Indicator.header]
  · induction ps with
    | nil => rfl
    | cons p ps ih => simp [ih]

/-- C3: for every `state1`, the loop over `state1.primary` produces for 5a and 5b,
in the original order, exactly one entry for every primary entry whose type is
not in `exclude` (none for the excluded ones), and the loop over
`state1.secondary` one for every secondary entry; the 5a entry is the original
entry with the first `⌊l/2⌋` data points, the 5b entry the original entry with
the remaining ones, so each keeps name, type and settings and the 5a data
followed by the 5b data is the original data.  The block stores these lists in
`state1_5a` and `state1_5b` (it has a result exactly when `state1.ohlcv` is
present, line 16 raising otherwise). -/
theorem split_indicators (state1 : State) :
    state1.primary.foldl primaryStep ([], []) =
      ((state1.primary.filter (fun p => !exclude.contains p.type)).map
          (fun p => { p with data := p.data.take (p.data.length / 2) }),
       (state1.primary.filter (fun p => !exclude.contains p.type)).map
          (fun p => { p with data := p.data.drop (p.data.length / 2) })) ∧
    state1.secondary.foldl secondaryStep ([], []) =
      (state1.secondary.map (fun p => { p with data := p.data.take (p.data.length / 2) }),
       state1.secondary.map (fun p => { p with data := p.data.drop (p.data.length / 2) })) ∧
    buildSplit (Bindings.initial state1) =
      state1.ohlcv.map (fun candles =>
        { state1 := state1,
          state1_5a :=
            { ohlcv := some (candles.take (candles.length / 2)),
              primary := (state1.primary.filter (fun p => !exclude.contains p.type)).map
                (fun p => { p with data := p.data.take (p.data.length / 2) }),
              secondary := state1.secondary.map
                (fun p => { p with data := p.data.take (p.data.length / 2) }) },
          state1_5b :=
            { ohlcv := some (candles.drop (candles.length / 2)),
              primary := (state1.primary.filter (fun p => !exclude.contains p.type)).map
                (fun p => { p with data := p.data.drop (p.data.length / 2) }),
              secondary := state1.secondary.map
                (fun p => { p with data := p.data.drop (p.data.length / 2) }) } }) ∧
    (state1.primary.foldl primaryStep ([], [])).1.map Indicator.header =
      (state1.primary.filter (fun p => !exclude.contains p.type)).map Indicator.header ∧
    (state1.primary.foldl primaryStep ([], [])).2.map Indicator.header =
      (state1.primary.filter (fun p => !exclude.contains p.type)).map Indicator.header ∧
    List.zipWith (fun x y => x.data ++ y.data)
        (state1.primary.foldl primaryStep ([], [])).1
        (state1.primary.foldl primaryStep ([], [])).2 =
      (state1.primary.filter (fun p => !exclude.contains p.type)).map (fun p => p.data) ∧
    (∀ e, e ∈ (state1.primary.foldl primaryStep ([], [])).1 ∨
          e ∈ (state1.primary.foldl primaryStep ([], [])).2 → e.type ∉ exclude) ∧
    (state1.secondary.foldl secondaryStep ([], [])).1.map Indicator.header =
      state1.secondary.map Indicator.header ∧
    (state1.secondary.foldl secondaryStep ([], [])).2.map Indicator.header =
      state1.secondary.map Indicator.header ∧
    List.zipWith (fun x y => x.data ++ y.data)
        (state1.secondary.foldl secondaryStep ([], [])).1
        (state1.secondary.foldl secondaryStep ([], [])).2 =
      state1.secondary.map (fun p => p.data) := by
  have hp := foldl_primaryStep_nil state1.primary
  have hs := foldl_secondaryStep_nil state1.secondary
  obtain ⟨k1, k2, k3⟩ :=
    map_header_halves (state1.primary.filter (fun p => !exclude.contains p.type))
  obtain ⟨s1, s2, s3⟩ := map_header_halves state1.secondary
  refine ⟨hp, hs, ?_, ?_, ?_, ?_, ?_, ?_, ?_, ?_⟩
  · cases h : state1.ohlcv with
    | none => simp [buildSplit, Bindings.initial, h]
    | some candles =>
      simp only [buildSplit, Bindings.initial, h, emptySplit, hp, hs, slice_front_half,
        slice_back_half, Option.map_some']
  · rw [hp]; exact k1
  · rw [hp]; exact k2
  · rw [hp]; exact k3
  · intro e he
    rw [hp] at he
    have hty : ∃ p ∈ state1.primary.filter (fun p => !exclude.contains p.type),
        e.type = p.type := by
      rcases he with he | he
      · obtain ⟨p, hp', rfl⟩ := List.mem_map.1 he
        exact ⟨p, hp', rfl⟩
      · obtain ⟨p, hp', rfl⟩ := List.mem_map.1 he
        exact ⟨p, hp', rfl⟩
    obtain ⟨p, hp', hty⟩ := hty
    have := (List.mem_filter.1 hp').2
    rw [hty]
    simpa using this
  · rw [hs]; exact s1
  · rw [hs]; exact s2
  · rw [hs]; exact s3

/-- C3, on the sample state: the `trades` entry is dropped, the three SMA points
are cut after the first, the two EMA points after the first, the five RSI points
after the second. -/
theorem split_indicators_witness :
    ∃ b, buildSplit (Bindings.initial sampleState1) = some b ∧
      b.state1_5a.primary.map (fun p => (p.name, p.data)) =
        [("SMA, 5", [[1, 10]]), ("EMA, 25", [[1, 9]])] ∧
      b.state1_5b.primary.map (fun p => (p.name, p.data)) =
        [("SMA, 5", [[2, 11], [3, 12]]), ("EMA, 25", [[2, 10]])] ∧
      b.state1_5a.secondary.map (fun p => p.data) = [[[1, 50], [2, 51]]] ∧
      b.state1_5b.secondary.map (fun p => p.data) = [[[3, 52], [4, 53], [5, 54]]] :=
  ⟨_, (split_indicators sampleState1).2.2.1.trans rfl, by decide, by decide, by decide,
    by decide⟩

/-! ### `Stream.kline` -/

/-- C4: for a running candle `[t, o, h, l, c, v]` and a tick `(tt, p, q)` with
`tt - t < tfms`, `kline` returns, keeps `t` and `o`, sets high to `max h p`, low
to `min l p`, close to `p` and volume to `v + q`, stores that candle (no other
field changes) and passes exactly these values to `klineCb`. -/
theorem kline_update (s : Stream) (tt p q : Num) (rnd : Nat → Num) (i : Nat)
    (hk : s.tick = some { t := tt, p := p, q := q })
    (hlt : tt - s.candle.t < s.tfms) :
    ∃ r, kline s rnd i = some r ∧
      r.stream.candle =
        { t := s.candle.t, o := s.candle.o, h := max s.candle.h p, l := min s.candle.l p,
          c := p, v := s.candle.v + q } ∧
      r.stream = { s with candle := r.stream.candle } ∧
      r.sent = r.stream.candle ∧ r.opened = false := by
  have hnot : ¬ (tt - s.candle.t ≥ s.tfms) := not_le.mpr hlt
  refine ⟨klineOn s { t := tt, p := p, q := q } rnd i, by simp [kline, hk], ?_, ?_, ?_, ?_⟩
  · simp only [klineOn, if_neg hnot]
    congr 1
    · rcases lt_or_le s.candle.h p with h | h
      · rw [if_pos h, max_eq_right h.le]
      · rw [if_neg (not_lt.mpr h), max_eq_left h]
    · rcases lt_or_le p s.candle.l with h | h
      · rw [if_pos h, min_eq_right h.le]
      · rw [if_neg (not_lt.mpr h), min_eq_left h]
  · simp only [klineOn, if_neg hnot]
  · simp only [klineOn, if_neg hnot]
  · simp only [klineOn, if_neg hnot]

/-- C4, on a candle `[5, 1, 2, 1, 2, 7]` and the tick `(12, 3, 1)` with
`tfms = 10`: the candle becomes `[5, 1, 3, 1, 3, 8]`. -/
theorem kline_update_witness :
    ∃ r, kline sampleStream (fun _ => 0) 0 = some r ∧
      r.stream.candle = { t := 5, o := 1, h := 3, l := 1, c := 3, v := 8 } ∧
      r.sent = r.stream.candle := by
  obtain ⟨r, hr, hc, _, hs, _⟩ :=
    kline_update sampleStream 12 3 1 (fun _ => 0) 0 rfl (by norm_num [sampleStream])
  refine ⟨r, hr, ?_, hs⟩
  rw [hc]
  norm_num [sampleStream]

/-- C5 as stated fails: with `tfms = 10`, a running candle opened at `t = 5` and
a tick at `tt = 12 ≥ t`, the tick has crossed the boundary `10`
(`⌊12 / 10⌋ = 1 > 0 = ⌊5 / 10⌋`), yet `kline` updates the running candle and
does not open a new one. -/
theorem kline_close_counterexample :
    (0 : Num) < sampleStream.tfms ∧ sampleStream.candle.t ≤ 12 ∧
    sampleStream.tick = some { t := 12, p := 3, q := 1 } ∧
    Int.floor (sampleStream.candle.t / sampleStream.tfms) < Int.floor (12 / sampleStream.tfms) ∧
    (kline sampleStream (fun _ => 0) 0).map (fun r => r.opened) = some false := by
  refine ⟨by norm_num [sampleStream], by norm_num [sampleStream], rfl, ?_, ?_⟩
  · have h1 : Int.floor (sampleStream.candle.t / sampleStream.tfms) = 0 := by
      rw [Int.floor_eq_iff]; norm_num [sampleStream]
    have h2 : Int.floor ((12 : Num) / sampleStream.tfms) = 1 := by
      rw [Int.floor_eq_iff]; norm_num [sampleStream]
    rw [h1, h2]; decide
  · simp [kline, klineOn, sampleStream]
    norm_num

theorem jsRem_aligned (a b : Num) : ∃ m : Int, a - jsRem a b = (m : Num) * b :=
  ⟨toIntegerOrInfinity (a / b), by unfold jsRem; ring⟩

/-- C5, amended: for `tfms > 0`, a running candle opened at `t` and a tick at
`tt` (`tt ≥ t` or not), `kline` returns and opens a new candle if and only if `tt - t ≥ tfms`;
when `t` is a multiple of `tfms` this is the same as
`⌊tt / tfms⌋ > ⌊t / tfms⌋`, and the open time of every candle that `kline`
opens is a multiple of `tfms`. -/
theorem kline_close_iff (s : Stream) (k : Tick) (rnd : Nat → Num) (i : Nat)
    (htf : 0 < s.tfms) (hk : s.tick = some k) :
    ∃ r, kline s rnd i = some r ∧
      (r.opened = true ↔ s.tfms ≤ k.t - s.candle.t) ∧
      ((∃ m : Int, s.candle.t = (m : Num) * s.tfms) →
        (r.opened = true ↔ Int.floor (s.candle.t / s.tfms) < Int.floor (k.t / s.tfms))) ∧
      (r.opened = true → ∃ m : Int, r.stream.candle.t = (m : Num) * s.tfms) := by
  have hop : (klineOn s k rnd i).opened = true ↔ s.tfms ≤ k.t - s.candle.t := by
    unfold klineOn
    by_cases h : k.t - s.candle.t ≥ s.tfms
    · simp [h]
    · simp only [if_neg h]
      simpa using h
  refine ⟨klineOn s k rnd i, by simp [kline, hk], hop, ?_, ?_⟩
  · rintro ⟨m, hm⟩
    rw [hop, hm]
    have hne : s.tfms ≠ 0 := ne_of_gt htf
    have hfl : Int.floor ((m : Num) * s.tfms / s.tfms) = m := by
      rw [mul_div_assoc, div_self hne, mul_one, Int.floor_intCast]
    rw [hfl, ← Int.add_one_le_iff, Int.le_floor, le_div_iff₀ htf]
    push_cast
    constructor
    · intro h; linarith
    · intro h; linarith
  · intro h
    have hge : k.t - s.candle.t ≥ s.tfms := hop.1 h
    simp only [klineOn, if_pos hge]
    exact jsRem_aligned _ _

/-- C5 amended, on a candle opened at `t = 10` with `tfms = 10`: the tick at
`tt = 19` does not open a new candle. -/
theorem kline_close_iff_witness :
    ∃ r, kline alignedStream (fun _ => 0) 0 = some r ∧
      (r.opened = true ↔ Int.floor ((10 : Num) / 10) < Int.floor ((19 : Num) / 10)) := by
  obtain ⟨r, hr, _, h2, _⟩ :=
    kline_close_iff alignedStream { t := 19, p := 3, q := 1 } (fun _ => 0) 0
      (by norm_num [alignedStream]) rfl
  exact ⟨r, hr, h2 ⟨1, by norm_num [alignedStream]⟩⟩

/-! ### `Stream.ticker` -/

/-! #### Rounding to doubles -/

theorem roundHalfEven_cases (q : Num) :
    roundHalfEven q = Int.floor q ∨
    (roundHalfEven q = Int.floor q + 1 ∧ (1 : Num) / 2 ≤ q - (Int.floor q : Num)) := by
  unfold roundHalfEven
  simp only []
  split_ifs with h1 h2 h3
  · exact Or.inl rfl
  · exact Or.inr ⟨rfl, le_of_lt h2⟩
  · exact Or.inl rfl
  · exact Or.inr ⟨rfl, not_lt.1 h1⟩

theorem roundHalfEven_le (q : Num) (k : Int) (h : q ≤ (k : Num)) : roundHalfEven q ≤ k := by
  have hf : Int.floor q ≤ k := by
    have := Int.floor_le q
    exact_mod_cast (Int.floor_le q).trans h |> fun h' => Int.cast_le.1 h'
  rcases roundHalfEven_cases q with h1 | ⟨h1, h2⟩
  · rw [h1]; exact hf
  · rw [h1]
    have hlt : (Int.floor q : Num) < (k : Num) := by linarith
    have : Int.floor q < k := by exact_mod_cast hlt
    omega

theorem roundHalfEven_nonneg (q : Num) (h : 0 ≤ q) : 0 ≤ roundHalfEven q := by
  have hf : 0 ≤ Int.floor q := Int.floor_nonneg.2 h
  rcases roundHalfEven_cases q with h1 | ⟨h1, _⟩ <;> rw [h1] <;> omega

theorem roundHalfEven_intCast (k : Int) : roundHalfEven (k : Num) = k := by
  simp [roundHalfEven]

theorem log_eq_of_bounds (x : Num) (e : Int) (h1 : (2 : Num) ^ e ≤ x) (h2 : x < (2 : Num) ^ (e + 1)) :
    Int.log 2 x = e := by
  have hx : 0 < x := lt_of_lt_of_le (by positivity) h1
  have a : e ≤ Int.log 2 x := (Int.zpow_le_iff_le_log (by norm_num) hx).1 (by exact_mod_cast h1)
  have b : Int.log 2 x < e + 1 := (Int.lt_zpow_iff_log_lt (by norm_num) hx).1 (by exact_mod_cast h2)
  omega

theorem roundDouble_zero : roundDouble 0 = 0 := by simp [roundDouble]

theorem roundDouble_nonneg (x : Num) (h : 0 ≤ x) : 0 ≤ roundDouble x := by
  unfold roundDouble
  split_ifs with h0
  · exact le_refl _
  · have hu : (0 : Num) < (2 : Num) ^ (Int.log 2 |x| - 52) := by positivity
    have hq : 0 ≤ x / (2 : Num) ^ (Int.log 2 |x| - 52) := div_nonneg h hu.le
    have := roundHalfEven_nonneg _ hq
    have hc : (0 : Num) ≤ (roundHalfEven (x / (2 : Num) ^ (Int.log 2 |x| - 52)) : Num) := by
      exact_mod_cast this
    exact mul_nonneg hu.le hc

theorem roundDouble_le (x m : Num) (hx : 0 ≤ x) (hxm : x ≤ m) (hm : roundDouble m = m) :
    roundDouble x ≤ m := by
  rcases eq_or_lt_of_le hx with h0 | hpos
  · rw [← h0, roundDouble_zero]; exact hx.trans hxm
  · have hmpos : 0 < m := lt_of_lt_of_le hpos hxm
    have hx0 : x ≠ 0 := ne_of_gt hpos
    have hm0 : m ≠ 0 := ne_of_gt hmpos
    have hlog : Int.log 2 x ≤ Int.log 2 m := Int.log_mono_right hpos hxm
    have hxu : x < (2 : Num) ^ (Int.log 2 x + 1) := by
      have := Int.lt_zpow_succ_log_self (R := Num) (b := 2) (by norm_num) x
      exact_mod_cast this
    have hml : (2 : Num) ^ (Int.log 2 m) ≤ m := by
      have := Int.zpow_log_le_self (R := Num) (b := 2) (by norm_num) hmpos
      exact_mod_cast this
    have hu : (0 : Num) < (2 : Num) ^ (Int.log 2 x - 52) := by positivity
    have hfx : roundDouble x =
        (2 : Num) ^ (Int.log 2 x - 52) *
          (roundHalfEven (x / (2 : Num) ^ (Int.log 2 x - 52)) : Num) := by
      simp only [roundDouble, hx0, if_false, abs_of_pos hpos]
    rw [hfx]
    rcases eq_or_lt_of_le hlog with heq | hlt
    · -- same binade: m is a multiple of the unit
      have hfm : (2 : Num) ^ (Int.log 2 x - 52) *
          (roundHalfEven (m / (2 : Num) ^ (Int.log 2 x - 52)) : Num) = m := by
        have := hm
        simp only [roundDouble, hm0, if_false, abs_of_pos hmpos] at this
        rw [heq]; exact this
      have hdiv : m / (2 : Num) ^ (Int.log 2 x - 52) =
          (roundHalfEven (m / (2 : Num) ^ (Int.log 2 x - 52)) : Num) := by
        rw [div_eq_iff (ne_of_gt hu), mul_comm]
        exact hfm.symm
      have hle : x / (2 : Num) ^ (Int.log 2 x - 52) ≤
          (roundHalfEven (m / (2 : Num) ^ (Int.log 2 x - 52)) : Num) := by
        rw [← hdiv]
        exact div_le_div_of_nonneg_right hxm hu.le
      have hk := roundHalfEven_le _ _ hle
      have hk' : (roundHalfEven (x / (2 : Num) ^ (Int.log 2 x - 52)) : Num) ≤
          (roundHalfEven (m / (2 : Num) ^ (Int.log 2 x - 52)) : Num) := by exact_mod_cast hk
      calc (2 : Num) ^ (Int.log 2 x - 52) *
            (roundHalfEven (x / (2 : Num) ^ (Int.log 2 x - 52)) : Num)
          ≤ (2 : Num) ^ (Int.log 2 x - 52) *
            (roundHalfEven (m / (2 : Num) ^ (Int.log 2 x - 52)) : Num) :=
            mul_le_mul_of_nonneg_left hk' hu.le
        _ = m := hfm
    · -- a lower binade: the rounded value is at most the next power of two
      have hpow : (2 : Num) ^ (Int.log 2 x + 1) =
          (2 : Num) ^ (Int.log 2 x - 52) * (((2 : Int) ^ 53 : Int) : Num) := by
        have h2 : (((2 : Int) ^ 53 : Int) : Num) = (2 : Num) ^ (53 : Int) := by norm_num
        rw [h2, ← zpow_add₀ (by norm_num : (2 : Num) ≠ 0)]
        congr 1
        omega
      have hle : x / (2 : Num) ^ (Int.log 2 x - 52) ≤ (((2 : Int) ^ 53 : Int) : Num) := by
        rw [div_le_iff₀ hu, mul_comm, ← hpow]
        exact hxu.le
      have hk := roundHalfEven_le _ _ hle
      have hk' : (roundHalfEven (x / (2 : Num) ^ (Int.log 2 x - 52)) : Num) ≤
          (((2 : Int) ^ 53 : Int) : Num) := by exact_mod_cast hk
      have hmono : (2 : Num) ^ (Int.log 2 x + 1) ≤ (2 : Num) ^ (Int.log 2 m) :=
        zpow_le_zpow_right₀ (by norm_num) (by omega)
      calc (2 : Num) ^ (Int.log 2 x - 52) *
            (roundHalfEven (x / (2 : Num) ^ (Int.log 2 x - 52)) : Num)
          ≤ (2 : Num) ^ (Int.log 2 x - 52) * (((2 : Int) ^ 53 : Int) : Num) :=
            mul_le_mul_of_nonneg_left hk' hu.le
        _ = (2 : Num) ^ (Int.log 2 x + 1) := hpow.symm
        _ ≤ (2 : Num) ^ (Int.log 2 m) := hmono
        _ ≤ m := hml

/-- A number with a 53-bit significand `k` is a double: rounding leaves it. -/
theorem roundDouble_of_significand (k e : Int) (h1 : (2 : Int) ^ 52 ≤ k) (h2 : k < (2 : Int) ^ 53) :
    roundDouble ((k : Num) * (2 : Num) ^ (e - 52)) = (k : Num) * (2 : Num) ^ (e - 52) := by
  have hu : (0 : Num) < (2 : Num) ^ (e - 52) := by positivity
  have hk1 : ((2 : Num) ^ (52 : Int)) ≤ (k : Num) := by
    have : (((2 : Int) ^ 52 : Int) : Num) ≤ (k : Num) := by exact_mod_cast h1
    calc ((2 : Num) ^ (52 : Int)) = (((2 : Int) ^ 52 : Int) : Num) := by norm_num
      _ ≤ (k : Num) := this
  have hk2 : (k : Num) < ((2 : Num) ^ (53 : Int)) := by
    have : (k : Num) < (((2 : Int) ^ 53 : Int) : Num) := by exact_mod_cast h2
    calc (k : Num) < (((2 : Int) ^ 53 : Int) : Num) := this
      _ = ((2 : Num) ^ (53 : Int)) := by norm_num
  have hkpos : (0 : Num) < (k : Num) := lt_of_lt_of_le (by positivity) hk1
  have hxpos : 0 < (k : Num) * (2 : Num) ^ (e - 52) := mul_pos hkpos hu
  have hlog : Int.log 2 ((k : Num) * (2 : Num) ^ (e - 52)) = e := by
    apply log_eq_of_bounds
    · calc (2 : Num) ^ e = (2 : Num) ^ (52 : Int) * (2 : Num) ^ (e - 52) := by
            rw [← zpow_add₀ (by norm_num : (2 : Num) ≠ 0)]; congr 1; omega
        _ ≤ (k : Num) * (2 : Num) ^ (e - 52) := mul_le_mul_of_nonneg_right hk1 hu.le
    · calc (k : Num) * (2 : Num) ^ (e - 52) < (2 : Num) ^ (53 : Int) * (2 : Num) ^ (e - 52) :=
            mul_lt_mul_of_pos_right hk2 hu
        _ = (2 : Num) ^ (e + 1) := by
            rw [← zpow_add₀ (by norm_num : (2 : Num) ≠ 0)]; congr 1; omega
  simp only [roundDouble, ne_of_gt hxpos, if_false, abs_of_pos hxpos, hlog]
  rw [mul_div_assoc, div_self (ne_of_gt hu), mul_one, roundHalfEven_intCast, mul_comm]


theorem roundDouble_half : roundDouble (1 / 2) = 1 / 2 := by
  have h := roundDouble_of_significand ((2 : Int) ^ 52) (-1) (le_refl _) (by norm_num)
  have e : (((2 : Int) ^ 52 : Int) : Num) * (2 : Num) ^ ((-1 : Int) - 52) = 1 / 2 := by
    norm_num [zpow_neg]
  rwa [e] at h

theorem roundDouble_one : roundDouble 1 = 1 := by
  have h := roundDouble_of_significand ((2 : Int) ^ 52) 0 (le_refl _) (by norm_num)
  have e : (((2 : Int) ^ 52 : Int) : Num) * (2 : Num) ^ ((0 : Int) - 52) = 1 := by
    norm_num [zpow_neg]
  rwa [e] at h

theorem roundDouble_ten : roundDouble 10 = 10 := by
  have h := roundDouble_of_significand (10 * (2 : Int) ^ 49) 3 (by norm_num) (by norm_num)
  have e : ((10 * (2 : Int) ^ 49 : Int) : Num) * (2 : Num) ^ ((3 : Int) - 52) = 10 := by
    norm_num [zpow_neg]
  rwa [e] at h

theorem roundDouble_five_quarters : roundDouble (5 / 4) = 5 / 4 := by
  have h := roundDouble_of_significand (5 * (2 : Int) ^ 50) 0 (by norm_num) (by norm_num)
  have e : ((5 * (2 : Int) ^ 50 : Int) : Num) * (2 : Num) ^ ((0 : Int) - 52) = 5 / 4 := by
    norm_num [zpow_neg]
  rwa [e] at h

theorem roundDouble_three_halves : roundDouble (3 / 2) = 3 / 2 := by
  have h := roundDouble_of_significand (3 * (2 : Int) ^ 51) 0 (by norm_num) (by norm_num)
  have e : ((3 * (2 : Int) ^ 51 : Int) : Num) * (2 : Num) ^ ((0 : Int) - 52) = 3 / 2 := by
    norm_num [zpow_neg]
  rwa [e] at h

theorem roundDouble_step : roundDouble (45 / 32) = 45 / 32 := by
  have h := roundDouble_of_significand (45 * (2 : Int) ^ 47) 0 (by norm_num) (by norm_num)
  have e : ((45 * (2 : Int) ^ 47 : Int) : Num) * (2 : Num) ^ ((0 : Int) - 52) = 45 / 32 := by
    norm_num [zpow_neg]
  rwa [e] at h

/-- The sum `2 ^ 53 + 45/32` is not a double: it is rounded to `2 ^ 53 + 2`. -/
theorem roundDouble_big : roundDouble (9007199254740992 + 45 / 32) = 9007199254740994 := by
  have hpos : (0 : Num) < 9007199254740992 + 45 / 32 := by norm_num
  have hlog : Int.log 2 ((9007199254740992 : Num) + 45 / 32) = 53 := by
    apply log_eq_of_bounds <;> norm_num
  have hfloor : Int.floor (((9007199254740992 : Num) + 45 / 32) / 2) = 4503599627370496 := by
    rw [Int.floor_eq_iff]; norm_num
  have hround : roundHalfEven (((9007199254740992 : Num) + 45 / 32) / 2) = 4503599627370497 := by
    unfold roundHalfEven
    simp only [hfloor]
    norm_num
  have hulp : (2 : Num) ^ ((53 : Int) - 52) = 2 := by norm_num
  simp only [roundDouble, ne_of_gt hpos, if_false, abs_of_pos hpos, hlog, hulp, hround]
  norm_num

/-! #### The price step -/

theorem getRandomIntFl_bounds (m r : Num) (hm : 0 < m) (hrep : roundDouble m = m)
    (h0 : 0 ≤ r) (h1 : r < 1) :
    0 ≤ getRandomIntFl roundDouble 0 m r ∧ getRandomIntFl roundDouble 0 m r ≤ m := by
  have hprod : 0 ≤ r * m := mul_nonneg h0 hm.le
  have hle : r * m ≤ m := by nlinarith
  have hy0 : 0 ≤ roundDouble (r * m) := roundDouble_nonneg _ hprod
  have hy1 : roundDouble (r * m) ≤ m := roundDouble_le _ _ hprod hle hrep
  unfold getRandomIntFl
  simp only [sub_zero, add_zero, hrep]
  exact ⟨roundDouble_nonneg _ hy0, roundDouble_le _ _ hy0 hy1 hrep⟩

theorem abs_priceIncFl_le (s : Stream) (rnd : Nat → Num) (i : Nat) (hmax : 0 < s.max)
    (hrep : roundDouble s.max = s.max) (hr : ∀ j, 0 ≤ rnd j ∧ rnd j < 1) :
    |(priceIncFl roundDouble s rnd i).1| ≤ s.max := by
  obtain ⟨h0, h1⟩ := hr (i + 1)
  obtain ⟨hb0, hb1⟩ := getRandomIntFl_bounds s.max (rnd (i + 1)) hmax hrep h0 h1
  unfold priceIncFl
  simp only []
  split_ifs
  · rw [mul_one, abs_of_nonneg hb0]; exact hb1
  · rw [mul_neg, mul_one, abs_neg, abs_of_nonneg hb0]; exact hb1

theorem ticker_price_exact (s : Stream) (now : Num) (rnd : Nat → Num) (i : Nat) :
    (ticker s now rnd i).tick.p = tickerPriceFl id s rnd i := by
  unfold ticker tickerPriceFl priceIncFl getRandomIntFl priceInc getRandomInt
  simp only [id]
  split_ifs <;> rfl

/-- C6 as stated fails at the previous price `p = 0`.  From the tick price `1/4`
(step bound `max = 1/2`) the draws `0, 1/2` give the step `-1/4` and the tick
price `0`; `kline` stores `0` as the candle close.  In the next call
`this.tick.p || this.candle[4] || 1` is `1`, so with draws `0, 0` the new price
is `1`, which differs from the previous price `0` by more than `max`; all these
values are doubles and the double arithmetic gives the same prices.  It also
fails by rounding: from the price `2 ^ 53` with `max = 3/2` the draws
`1/8, 15/16` give the step `45/32`, the sum is rounded to `2 ^ 53 + 2`, and the
price has moved by `2`. -/
theorem ticker_price_counterexample :
    (0 : Num) < walkStream.max ∧
    (∀ j, 0 ≤ walkDraws j ∧ walkDraws j < 1) ∧
    (ticker walkStream 0 walkDraws 0).tick.p = 0 ∧
    (ticker walkStream 0 walkDraws 0).stream.max = 1 / 2 ∧
    (ticker (ticker walkStream 0 walkDraws 0).stream 0 (fun _ => 0) 0).tick.p = 1 ∧
    ¬ (|(ticker (ticker walkStream 0 walkDraws 0).stream 0 (fun _ => 0) 0).tick.p
          - (ticker walkStream 0 walkDraws 0).tick.p|
        ≤ (ticker walkStream 0 walkDraws 0).stream.max) ∧
    tickerPriceFl roundDouble walkStream walkDraws 0 = 0 ∧
    tickerPriceFl roundDouble (ticker walkStream 0 walkDraws 0).stream (fun _ => 0) 0 = 1 ∧
    (0 : Num) < bigStream.max ∧ roundDouble bigStream.max = bigStream.max ∧
    (∀ j, 0 ≤ bigDraws j ∧ bigDraws j < 1) ∧
    bigStream.tick = some { t := 100, p := 9007199254740992, q := 1 } ∧
    (priceIncFl roundDouble bigStream bigDraws 0).1 = 45 / 32 ∧
    tickerPriceFl roundDouble bigStream bigDraws 0 = 9007199254740994 ∧
    ¬ (|tickerPriceFl roundDouble bigStream bigDraws 0 - 9007199254740992| ≤ bigStream.max) := by
  have hp : (ticker walkStream 0 walkDraws 0).tick.p = 0 := by
    simp [ticker, walkStream, walkDraws, priceInc, getRandomInt, orNum, jsRem,
      toIntegerOrInfinity, volumeInc, klineOn]
    norm_num
  have hs : (ticker walkStream 0 walkDraws 0).stream =
      { walkStream with
        tick := some { t := 101, p := 0, q := 0 },
        candle := { t := 100, o := 1, h := 2, l := 0, c := 0, v := 7 } } := by
    simp [ticker, walkStream, walkDraws, priceInc, getRandomInt, orNum, jsRem,
      toIntegerOrInfinity, volumeInc, klineOn]
    norm_num
  have hp2 : (ticker (ticker walkStream 0 walkDraws 0).stream 0 (fun _ => 0) 0).tick.p = 1 := by
    rw [hs]
    simp [ticker, walkStream, priceInc, getRandomInt, orNum, jsRem,
      toIntegerOrInfinity, volumeInc, klineOn]
  have hquarter : roundDouble (1 / 4) = 1 / 4 := by
    have h := roundDouble_of_significand ((2 : Int) ^ 52) (-2) (le_refl _) (by norm_num)
    have e : (((2 : Int) ^ 52 : Int) : Num) * (2 : Num) ^ ((-2 : Int) - 52) = 1 / 4 := by
      norm_num [zpow_neg]
    rwa [e] at h
  have hw1 : tickerPriceFl roundDouble walkStream walkDraws 0 = 0 := by
    have i2 : roundDouble (2⁻¹ : Num) = 2⁻¹ := by simpa using roundDouble_half
    have i4 : roundDouble (4⁻¹ : Num) = 4⁻¹ := by simpa using hquarter
    have m4 : (2⁻¹ : Num) * 2⁻¹ = 4⁻¹ := by norm_num
    simp [tickerPriceFl, priceIncFl, getRandomIntFl, walkStream, walkDraws, orNum, jsRem,
      toIntegerOrInfinity, roundDouble_zero, roundDouble_ten, i2, i4, m4]
  have hw2 : tickerPriceFl roundDouble (ticker walkStream 0 walkDraws 0).stream
      (fun _ => 0) 0 = 1 := by
    rw [hs]
    have i2 : roundDouble (2⁻¹ : Num) = 2⁻¹ := by simpa using roundDouble_half
    simp [tickerPriceFl, priceIncFl, getRandomIntFl, walkStream, orNum, jsRem,
      toIntegerOrInfinity, roundDouble_zero, roundDouble_ten, i2, roundDouble_one]
  have hinc : (priceIncFl roundDouble bigStream bigDraws 0).1 = 45 / 32 := by
    have e1 : (1 : Num) / 8 * 10 = 5 / 4 := by norm_num
    have e2 : (15 : Num) / 16 * (3 / 2) = 45 / 32 := by norm_num
    have e3 : (5 : Num) / 4 / 2 = 5 / 8 := by norm_num
    have f1 : Int.floor ((5 : Num) / 8) = 0 := by
      rw [Int.floor_eq_iff]; norm_num
    have f2 : Int.floor ((5 : Num) / 4) = 1 := by
      rw [Int.floor_eq_iff]; norm_num
    have hpos : (0 : Num) ≤ 5 / 8 := by norm_num
    simp only [priceIncFl, getRandomIntFl, bigStream, bigDraws, sub_zero, add_zero, if_true,
      roundDouble_ten, e1, roundDouble_five_quarters, jsRem, toIntegerOrInfinity, e3, hpos,
      f1, Int.cast_zero, mul_zero, f2, roundDouble_three_halves, Nat.zero_add, Nat.one_ne_zero,
      if_false, e2, roundDouble_step, mul_one]
  have hbig : tickerPriceFl roundDouble bigStream bigDraws 0 = 9007199254740994 := by
    have hp0 : orNum (orNum (9007199254740992 : Num) 9007199254740992) 1 = 9007199254740992 := by
      simp [orNum]
    have hlt : ¬ ((9007199254740994 : Num) < 0) := by norm_num
    unfold tickerPriceFl
    simp only [hinc]
    simp only [bigStream, hp0, roundDouble_big, hlt, if_false]
  refine ⟨by norm_num [walkStream], ?_, hp, by rw [hs]; rfl, hp2, ?_, hw1, hw2,
    by norm_num [bigStream], by simpa [bigStream] using roundDouble_three_halves, ?_, rfl,
    hinc, hbig, ?_⟩
  · intro j
    unfold walkDraws
    split_ifs <;> norm_num
  · rw [hp2, hp, hs]
    norm_num [walkStream]
  · intro j
    unfold bigDraws
    split_ifs <;> norm_num
  · rw [hbig]
    norm_num [bigStream]

/-- C6, amended: for a step bound `max > 0` that is a double, a previous tick
price `p > 0` and draws in `[0, 1)`, in double arithmetic the step `priceInc`
has absolute value at most `max`; the price of the tick is the rounded sum
`p + step`, or, when that sum is negative, the absolute value of a second step;
so it differs from `p` by at most `max` plus the rounding error of the one
addition `p + step`, and by at most `max` when the sum is negative. -/
theorem ticker_price_bounded (s : Stream) (k : Tick) (rnd : Nat → Num) (i : Nat)
    (hmax : 0 < s.max) (hrep : roundDouble s.max = s.max) (hk : s.tick = some k)
    (hp : 0 < k.p) (hr : ∀ j, 0 ≤ rnd j ∧ rnd j < 1) :
    |(priceIncFl roundDouble s rnd i).1| ≤ s.max ∧
    |(priceIncFl roundDouble s rnd (i + 2)).1| ≤ s.max ∧
    tickerPriceFl roundDouble s rnd i =
      (if roundDouble (k.p + (priceIncFl roundDouble s rnd i).1) < 0
        then |(priceIncFl roundDouble s rnd (i + 2)).1|
        else roundDouble (k.p + (priceIncFl roundDouble s rnd i).1)) ∧
    |tickerPriceFl roundDouble s rnd i - k.p| ≤
      s.max + |roundDouble (k.p + (priceIncFl roundDouble s rnd i).1)
                - (k.p + (priceIncFl roundDouble s rnd i).1)| ∧
    (roundDouble (k.p + (priceIncFl roundDouble s rnd i).1) < 0 →
      |tickerPriceFl roundDouble s rnd i - k.p| ≤ s.max) := by
  have hp0 : orNum (orNum k.p s.candle.c) 1 = k.p := by
    simp [orNum, ne_of_gt hp]
  have h1 := abs_priceIncFl_le s rnd i hmax hrep hr
  have h2 := abs_priceIncFl_le s rnd (i + 2) hmax hrep hr
  have hprice : tickerPriceFl roundDouble s rnd i =
      (if roundDouble (k.p + (priceIncFl roundDouble s rnd i).1) < 0
        then |(priceIncFl roundDouble s rnd (i + 2)).1|
        else roundDouble (k.p + (priceIncFl roundDouble s rnd i).1)) := by
    unfold tickerPriceFl
    simp only [hk, hp0]
    rfl
  have hnegcase : roundDouble (k.p + (priceIncFl roundDouble s rnd i).1) < 0 →
      |tickerPriceFl roundDouble s rnd i - k.p| ≤ s.max := by
    intro hneg
    have hsum : k.p + (priceIncFl roundDouble s rnd i).1 < 0 := by
      by_contra hge
      exact absurd (roundDouble_nonneg _ (not_lt.1 hge)) (not_le.2 hneg)
    have h1' := abs_le.1 h1
    have hnn := abs_nonneg (priceIncFl roundDouble s rnd (i + 2)).1
    rw [hprice, if_pos hneg, abs_le]
    constructor <;> linarith
  refine ⟨h1, h2, hprice, ?_, hnegcase⟩
  by_cases hneg : roundDouble (k.p + (priceIncFl roundDouble s rnd i).1) < 0
  · exact (hnegcase hneg).trans (le_add_of_nonneg_right (abs_nonneg _))
  · rw [hprice, if_neg hneg]
    have e : roundDouble (k.p + (priceIncFl roundDouble s rnd i).1) - k.p =
        (priceIncFl roundDouble s rnd i).1 +
          (roundDouble (k.p + (priceIncFl roundDouble s rnd i).1)
            - (k.p + (priceIncFl roundDouble s rnd i).1)) := by ring
    rw [e]
    exact (abs_add _ _).trans (add_le_add_right h1 _)

/-- C6 amended, from the price `1/4` with `max = 1/2`. -/
theorem ticker_price_bounded_witness :
    |(priceIncFl roundDouble walkStream walkDraws 0).1| ≤ 1 / 2 ∧
    |tickerPriceFl roundDouble walkStream walkDraws 0 - 1 / 4| ≤
      1 / 2 + |roundDouble (1 / 4 + (priceIncFl roundDouble walkStream walkDraws 0).1)
                - (1 / 4 + (priceIncFl roundDouble walkStream walkDraws 0).1)| :=
  ⟨(ticker_price_bounded walkStream { t := 100, p := 1 / 4, q := 1 } walkDraws 0
      (by norm_num [walkStream]) roundDouble_half rfl (by norm_num)
      (by intro j; unfold walkDraws; split_ifs <;> norm_num)).1,
   (ticker_price_bounded walkStream { t := 100, p := 1 / 4, q := 1 } walkDraws 0
      (by norm_num [walkStream]) roundDouble_half rfl (by norm_num)
      (by intro j; unfold walkDraws; split_ifs <;> norm_num)).2.2.2.1⟩

/-! ### `waitForChartReady` -/

theorem waitForChartReady_found (chart : Nat → Option ChartSnap) (maxAttempts : Nat) :
    ∀ n a, a + n < maxAttempts →
      (∀ j, j < n → isChartDataReady (chart (a + j)) = false) →
      isChartDataReady (chart (a + n)) = true →
      (waitForChartReady chart maxAttempts a).trace =
        notReadyPolls a n ++ [PollEvent.check (a + n), PollEvent.callback (a + n)] := by
  intro n
  induction n with
  | zero =>
    intro a ha _ hr
    rw [waitForChartReady]
    have h1 : ¬ (a ≥ maxAttempts) := by omega
    simp only [Nat.add_zero] at hr
    simp [h1, hr, notReadyPolls]
  | succ n ih =>
    intro a ha hn hr
    rw [waitForChartReady]
    have h1 : ¬ (a ≥ maxAttempts) := by omega
    have h2 : isChartDataReady (chart a) = false := by simpa using hn 0 (by omega)
    have h3 := ih (a + 1) (by omega)
      (fun j hj => by have := hn (j + 1) (by omega); rwa [show a + (j + 1) = a + 1 + j by omega] at this)
      (by rwa [show a + (n + 1) = a + 1 + n by omega] at hr)
    simp only [h1, h2, if_false, Bool.false_eq_true, notReadyPolls, h3, List.cons_append]
    rw [show a + (n + 1) = a + 1 + n by omega]

theorem waitForChartReady_none (chart : Nat → Option ChartSnap) (maxAttempts : Nat) :
    ∀ n a, a + n = maxAttempts →
      (∀ j, j < n → isChartDataReady (chart (a + j)) = false) →
      (waitForChartReady chart maxAttempts a).trace =
        notReadyPolls a n ++ [PollEvent.timeoutError maxAttempts] := by
  intro n
  induction n with
  | zero =>
    intro a ha _
    rw [waitForChartReady]
    have h1 : a ≥ maxAttempts := by omega
    simp [h1, notReadyPolls]
  | succ n ih =>
    intro a ha hn
    rw [waitForChartReady]
    have h1 : ¬ (a ≥ maxAttempts) := by omega
    have h2 : isChartDataReady (chart a) = false := by simpa using hn 0 (by omega)
    have h3 := ih (a + 1) (by omega)
      (fun j hj => by have := hn (j + 1) (by omega); rwa [show a + (j + 1) = a + 1 + j by omega] at this)
    simp only [h1, h2, if_false, Bool.false_eq_true, notReadyPolls, h3, List.cons_append]

theorem notReadyPolls_filter_callback (a n : Nat) :
    (notReadyPolls a n).filter PollEvent.isCallback = [] := by
  induction n generalizing a with
  | zero => rfl
  | succ n ih => simp [notReadyPolls, PollEvent.isCallback, ih]

theorem notReadyPolls_filter_timeout (a n : Nat) :
    (notReadyPolls a n).filter PollEvent.isTimeout = [] := by
  induction n generalizing a with
  | zero => rfl
  | succ n ih => simp [notReadyPolls, PollEvent.isTimeout, ih]

theorem notReadyPolls_filter_check (a n : Nat) :
    (notReadyPolls a n).filter PollEvent.isCheck =
      (List.range n).map (fun j => PollEvent.check (a + j)) := by
  induction n generalizing a with
  | zero => rfl
  | succ n ih =>
    simp only [notReadyPolls, List.filter_cons, PollEvent.isCheck, if_true, ih,
      Bool.false_eq_true, if_false, List.range_succ_eq_map, List.map_cons, List.map_map,
      Nat.add_zero]
    congr 1
    apply List.map_congr_left
    intro j _
    simp only [Function.comp, Nat.succ_eq_add_one]
    congr 1
    omega

theorem notReadyPolls_schedule (a n d : Nat) (h : PollEvent.schedule d ∈ notReadyPolls a n) :
    d = 100 := by
  induction n generalizing a with
  | zero => simp [notReadyPolls] at h
  | succ n ih =>
    simp only [notReadyPolls, List.mem_cons] at h
    rcases h with h | h | h
    · cases h
    · cases h; rfl
    · exact ih _ h

/-- C7: for every `maxAttempts` and every sequence of charts, with
`r k = isChartDataReady (chart k)`, the callback is invoked if and only if some
`k < maxAttempts` has `r k`; it is invoked at most once; and when `k` is the
least such index the events are the `k` polls that find the chart not ready,
each followed by a `setTimeout`, then the check and the callback at `k`, after
which the trace ends: nothing further is scheduled. -/
theorem waitForChartReady_callback (chart : Nat → Option ChartSnap) (maxAttempts : Nat) :
    ((∃ e, e ∈ (waitForChartReady chart maxAttempts 0).trace ∧ e.isCallback = true) ↔
      ∃ k, k < maxAttempts ∧ isChartDataReady (chart k) = true) ∧
    ((waitForChartReady chart maxAttempts 0).trace.filter PollEvent.isCallback).length ≤ 1 ∧
    (∀ k, k < maxAttempts → isChartDataReady (chart k) = true →
      (∀ j, j < k → isChartDataReady (chart j) = false) →
      (waitForChartReady chart maxAttempts 0).trace =
        notReadyPolls 0 k ++ [PollEvent.check k, PollEvent.callback k] ∧
      (waitForChartReady chart maxAttempts 0).trace.filter PollEvent.isCallback =
        [PollEvent.callback k]) := by
  have hfound : ∀ k, k < maxAttempts → isChartDataReady (chart k) = true →
      (∀ j, j < k → isChartDataReady (chart j) = false) →
      (waitForChartReady chart maxAttempts 0).trace =
        notReadyPolls 0 k ++ [PollEvent.check k, PollEvent.callback k] := by
    intro k hk hr hl
    have := waitForChartReady_found chart maxAttempts k 0 (by omega)
      (fun j hj => by simpa using hl j hj) (by simpa using hr)
    simpa using this
  have hfilter : ∀ k, (notReadyPolls 0 k ++ [PollEvent.check k, PollEvent.callback k]).filter
      PollEvent.isCallback = [PollEvent.callback k] := by
    intro k
    simp [List.filter_append, notReadyPolls_filter_callback, PollEvent.isCallback]
  by_cases hex : ∃ k, k < maxAttempts ∧ isChartDataReady (chart k) = true
  · -- the least ready index
    have hk := Nat.find_spec hex
    have hmin : ∀ j, j < Nat.find hex → isChartDataReady (chart j) = false := by
      intro j hj
      have := Nat.find_min hex hj
      by_contra hne
      exact this ⟨by omega, by simpa using hne⟩
    have htr := hfound _ hk.1 hk.2 hmin
    refine ⟨⟨fun _ => hex, fun _ => ⟨PollEvent.callback (Nat.find hex), ?_, rfl⟩⟩, ?_, ?_⟩
    · rw [htr]; simp
    · rw [htr, hfilter]; simp
    · intro k hk1 hk2 hk3
      have h := hfound k hk1 hk2 hk3
      exact ⟨h, by rw [h, hfilter]⟩
  · have hnone : ∀ j, j < maxAttempts → isChartDataReady (chart (0 + j)) = false := by
      intro j hj
      by_contra hne
      exact hex ⟨j, hj, by simpa using hne⟩
    have htr := waitForChartReady_none chart maxAttempts maxAttempts 0 (by omega) hnone
    have hf : (waitForChartReady chart maxAttempts 0).trace.filter PollEvent.isCallback = [] := by
      rw [htr]
      simp [List.filter_append, notReadyPolls_filter_callback, PollEvent.isCallback]
    refine ⟨⟨?_, fun h => absurd h hex⟩, by rw [hf]; simp, ?_⟩
    · rintro ⟨e, he, hc⟩
      have : e ∈ (waitForChartReady chart maxAttempts 0).trace.filter PollEvent.isCallback :=
        List.mem_filter.2 ⟨he, hc⟩
      rw [hf] at this
      simp at this
    · intro k hk1 hk2 _
      exact absurd ⟨k, hk1, hk2⟩ hex

/-- C7, on a chart that becomes ready at the third poll (`k = 2`) of five. -/
theorem waitForChartReady_callback_witness :
    (waitForChartReady (fun k => if k < 2 then some blankChart else some readyChart) 5 0).trace =
      [PollEvent.check 0, PollEvent.schedule 100, PollEvent.check 1, PollEvent.schedule 100,
       PollEvent.check 2, PollEvent.callback 2] :=
  ((waitForChartReady_callback (fun k => if k < 2 then some blankChart else some readyChart) 5).2.2
    2 (by decide) (by decide) (by intro j hj; interval_cases j <;> decide)).1

/-- C8: for every `maxAttempts` and a chart that is never ready, the events are
`maxAttempts` readiness checks with `attempt = 0, 1, ..., maxAttempts - 1`, each
followed by a `setTimeout` with delay 100, then the timeout error
"after maxAttempts attempts", once, and nothing else; the callback is never
invoked and the first call returns `false`. -/
theorem waitForChartReady_timeout (chart : Nat → Option ChartSnap) (maxAttempts : Nat)
    (hnever : ∀ k, isChartDataReady (chart k) = false) :
    (waitForChartReady chart maxAttempts 0).trace =
      notReadyPolls 0 maxAttempts ++ [PollEvent.timeoutError maxAttempts] ∧
    (waitForChartReady chart maxAttempts 0).trace.filter PollEvent.isCheck =
      (List.range maxAttempts).map PollEvent.check ∧
    ((waitForChartReady chart maxAttempts 0).trace.filter PollEvent.isCheck).length =
      maxAttempts ∧
    (waitForChartReady chart maxAttempts 0).trace.filter PollEvent.isTimeout =
      [PollEvent.timeoutError maxAttempts] ∧
    (waitForChartReady chart maxAttempts 0).trace.filter PollEvent.isCallback = [] ∧
    (∀ d, PollEvent.schedule d ∈ (waitForChartReady chart maxAttempts 0).trace → d = 100) ∧
    (waitForChartReady chart maxAttempts 0).returned = false := by
  have htr := waitForChartReady_none chart maxAttempts maxAttempts 0 (by omega)
    (fun j _ => hnever _)
  have hck : (waitForChartReady chart maxAttempts 0).trace.filter PollEvent.isCheck =
      (List.range maxAttempts).map PollEvent.check := by
    rw [htr, List.filter_append, notReadyPolls_filter_check]
    simp [PollEvent.isCheck]
  refine ⟨htr, hck, by rw [hck]; simp, ?_, ?_, ?_, ?_⟩
  · rw [htr, List.filter_append, notReadyPolls_filter_timeout]
    simp [PollEvent.isTimeout]
  · rw [htr, List.filter_append, notReadyPolls_filter_callback]
    simp [PollEvent.isCallback]
  · intro d hd
    rw [htr, List.mem_append] at hd
    rcases hd with hd | hd
    · exact notReadyPolls_schedule _ _ _ hd
    · simp at hd
  · rw [waitForChartReady]
    by_cases h : 0 ≥ maxAttempts
    · simp [h]
    · simp [h, hnever 0]

/-- C8, on a blank chart with `maxAttempts = 2`. -/
theorem waitForChartReady_timeout_witness :
    (waitForChartReady (fun _ => some blankChart) 2 0).trace =
      [PollEvent.check 0, PollEvent.schedule 100, PollEvent.check 1, PollEvent.schedule 100,
       PollEvent.timeoutError 2] :=
  (waitForChartReady_timeout (fun _ => some blankChart) 2 (fun _ => rfl)).1

/-! ### `checkChartData` -/

theorem checkChartData_found (chart : Nat → ChartSnap) (delay : Nat) :
    ∀ j n now, j < n →
      (∀ i, i < j → pollHasData (chart (now + i + 1)) = false) →
      pollHasData (chart (now + j + 1)) = true →
      checkChartData chart delay n now =
        failedPolls delay now j ++
          [CheckEvent.schedule delay, CheckEvent.poll (now + j + 1) true,
           CheckEvent.logDataPoints] := by
  intro j
  induction j with
  | zero =>
    intro n now hn _ hr
    obtain ⟨m, rfl⟩ : ∃ m, n = m + 1 := ⟨n - 1, by omega⟩
    simp only [Nat.add_zero] at hr
    simp [checkChartData, hr, failedPolls]
  | succ j ih =>
    intro n now hn hl hr
    obtain ⟨m, rfl⟩ : ∃ m, n = m + 1 := ⟨n - 1, by omega⟩
    have h0 : pollHasData (chart (now + 1)) = false := by simpa using hl 0 (by omega)
    have h3 := ih m (now + 1) (by omega)
      (fun i hi => by
        have := hl (i + 1) (by omega)
        rwa [show now + (i + 1) + 1 = now + 1 + i + 1 by omega] at this)
      (by rwa [show now + (j + 1) + 1 = now + 1 + j + 1 by omega] at hr)
    simp only [checkChartData, h0, Bool.false_eq_true, if_false, h3, failedPolls,
      List.cons_append]
    rw [show now + (j + 1) + 1 = now + 1 + j + 1 by omega]

theorem checkChartData_none (chart : Nat → ChartSnap) (delay : Nat) :
    ∀ n now, (∀ i, i < n → pollHasData (chart (now + i + 1)) = false) →
      checkChartData chart delay n now =
        failedPolls delay now n ++ finalBranch (chart (now + n)) := by
  intro n
  induction n with
  | zero => intro now _; simp [checkChartData, failedPolls]
  | succ n ih =>
    intro now hl
    have h0 : pollHasData (chart (now + 1)) = false := by simpa using hl 0 (by omega)
    have h3 := ih (now + 1) (fun i hi => by
      have := hl (i + 1) (by omega)
      rwa [show now + (i + 1) + 1 = now + 1 + i + 1 by omega] at this)
    simp only [checkChartData, h0, Bool.false_eq_true, if_false, h3, failedPolls,
      List.cons_append]
    rw [show now + 1 + n = now + (n + 1) by omega]

theorem checkChartData_polls_le (chart : Nat → ChartSnap) (delay : Nat) :
    ∀ n now, ((checkChartData chart delay n now).filter CheckEvent.isPoll).length ≤ n ∧
      ((checkChartData chart delay n now).filter CheckEvent.isSchedule).length =
        ((checkChartData chart delay n now).filter CheckEvent.isPoll).length ∧
      (∀ d, CheckEvent.schedule d ∈ checkChartData chart delay n now → d = delay) := by
  intro n
  induction n with
  | zero =>
    intro now
    simp only [checkChartData, finalBranch]
    split_ifs <;> simp [CheckEvent.isPoll, CheckEvent.isSchedule]
  | succ n ih =>
    intro now
    obtain ⟨h1, h2, h3⟩ := ih (now + 1)
    simp only [checkChartData]
    split_ifs
    · simp [CheckEvent.isPoll, CheckEvent.isSchedule]
    · refine ⟨?_, ?_, ?_⟩
      · simp only [List.filter_cons, CheckEvent.isPoll, Bool.false_eq_true, if_false, if_true,
          List.length_cons]
        omega
      · simp only [List.filter_cons, CheckEvent.isPoll, CheckEvent.isSchedule,
          Bool.false_eq_true, if_false, if_true, List.length_cons]
        omega
      · intro d hd
        simp only [List.mem_cons] at hd
        rcases hd with hd | hd | hd
        · cases hd; rfl
        · cases hd
        · exact h3 d hd

theorem failedPolls_filter_final (delay now n : Nat) :
    (failedPolls delay now n).filter CheckEvent.isFinal = [] := by
  induction n generalizing now with
  | zero => rfl
  | succ n ih => simp [failedPolls, CheckEvent.isFinal, ih]

theorem failedPolls_filter_poll_length (delay now n : Nat) :
    ((failedPolls delay now n).filter CheckEvent.isPoll).length = n := by
  induction n generalizing now with
  | zero => rfl
  | succ n ih => simp [failedPolls, CheckEvent.isPoll, ih]

theorem finalBranch_filter_final (c : ChartSnap) :
    (finalBranch c).filter CheckEvent.isFinal = [CheckEvent.final (finalCheck c)] := by
  simp only [finalBranch]
  split_ifs <;> simp [CheckEvent.isFinal]

theorem finalBranch_no_schedule (c : ChartSnap) :
    (finalBranch c).filter CheckEvent.isSchedule = [] ∧
    (finalBranch c).filter CheckEvent.isPoll = [] := by
  simp only [finalBranch]
  split_ifs <;> simp [CheckEvent.isSchedule, CheckEvent.isPoll]

/-- C9: the call `checkChartData()` with the defaults performs at most 15 polls,
each one registered by a `setTimeout` with delay 400 (as many registrations as
polls, none with another delay); when the poll at turn `now + j + 1` (`j < 15`)
is the first that finds data, the trace is the `j` failed polls, then that poll
and its log, and holds no final check; when all 15 polls find no data the trace
is the 15 failed polls followed by the final branch, run once on the chart of
the last poll, and that branch registers no timer and makes no poll. -/
theorem checkChartData_bounded (chart : Nat → ChartSnap) (now : Nat) :
    ((checkChartDataDefault chart now).filter CheckEvent.isPoll).length ≤ 15 ∧
    ((checkChartDataDefault chart now).filter CheckEvent.isSchedule).length =
      ((checkChartDataDefault chart now).filter CheckEvent.isPoll).length ∧
    (∀ d, CheckEvent.schedule d ∈ checkChartDataDefault chart now → d = 400) ∧
    (∀ j, j < 15 → (∀ i, i < j → pollHasData (chart (now + i + 1)) = false) →
      pollHasData (chart (now + j + 1)) = true →
      checkChartDataDefault chart now =
        failedPolls 400 now j ++
          [CheckEvent.schedule 400, CheckEvent.poll (now + j + 1) true,
           CheckEvent.logDataPoints] ∧
      (checkChartDataDefault chart now).filter CheckEvent.isFinal = []) ∧
    ((∀ i, i < 15 → pollHasData (chart (now + i + 1)) = false) →
      checkChartDataDefault chart now =
        failedPolls 400 now 15 ++ finalBranch (chart (now + 15)) ∧
      ((checkChartDataDefault chart now).filter CheckEvent.isPoll).length = 15 ∧
      (checkChartDataDefault chart now).filter CheckEvent.isFinal =
        [CheckEvent.final (finalCheck (chart (now + 15)))] ∧
      (finalBranch (chart (now + 15))).filter CheckEvent.isSchedule = [] ∧
      (finalBranch (chart (now + 15))).filter CheckEvent.isPoll = []) := by
  obtain ⟨h1, h2, h3⟩ := checkChartData_polls_le chart 400 15 now
  refine ⟨h1, h2, h3, ?_, ?_⟩
  · intro j hj hl hr
    have h := checkChartData_found chart 400 j 15 now hj hl hr
    refine ⟨h, ?_⟩
    unfold checkChartDataDefault
    rw [h, List.filter_append, failedPolls_filter_final]
    simp [CheckEvent.isFinal]
  · intro hl
    have h := checkChartData_none chart 400 15 now hl
    unfold checkChartDataDefault
    refine ⟨h, ?_, ?_, finalBranch_no_schedule _⟩
    · rw [h, List.filter_append, List.length_append, failedPolls_filter_poll_length,
        (finalBranch_no_schedule _).2]
      rfl
    · rw [h, List.filter_append, failedPolls_filter_final, finalBranch_filter_final]
      rfl

/-- C9, on a chart that holds data from turn 2 on: one failed poll, then the poll
that finds the data. -/
theorem checkChartData_bounded_witness :
    checkChartDataDefault (fun k => if k < 2 then blankChart else readyChart) 0 =
      [CheckEvent.schedule 400, CheckEvent.poll 1 false,
       CheckEvent.schedule 400, CheckEvent.poll 2 true, CheckEvent.logDataPoints] :=
  ((checkChartData_bounded (fun k => if k < 2 then blankChart else readyChart) 0).2.2.2.1
    1 (by decide) (by intro i hi; interval_cases i; decide) (by decide)).1

/-- C10, the code at a failing input: the chart `renderedNoRange` has a rendered
canvas, so one of the data locations holds data, but `chart.range.value` is a
function returning an empty array, the `else if` chain stops at that branch, and
the final check concludes `chartHasData = false` and warns.  The same happens
for `ohlcvOnly`, whose `chart.ohlcv` holds three candles, and in the flow of
`checkChartData()` after the 15 polls on `renderedNoRange`. -/
theorem finalCheck_skips_locations :
    holdsData renderedNoRange = true ∧
    (finalCheck renderedNoRange).chartHasData = false ∧
    CheckEvent.warnLoadingIssues ∈ finalBranch renderedNoRange ∧
    holdsData ohlcvOnly = true ∧ pollHasData ohlcvOnly = true ∧
    (finalCheck ohlcvOnly).chartHasData = false ∧
    CheckEvent.warnLoadingIssues ∈ finalBranch ohlcvOnly ∧
    CheckEvent.warnLoadingIssues ∈ checkChartDataDefault (fun _ => renderedNoRange) 0 := by
  decide


/-! ### `configHasState` and `isChartDataReady` -/

/-- C11: (1) a config whose `state.ohlcv` is a non-empty array has
`configHasState = true`; (2) so has one whose `state.ohlcv` is absent or an empty
array and whose `state.primary` is a non-empty array; (3) a config whose state
is the empty object or is absent has `configHasState = false`; and the refresh
delay is 500 when `configHasState` is true and 100 otherwise. -/
theorem configHasState_formats (config : JSVal) :
    (∀ items, (config.get "state").get "ohlcv" = .array items → items ≠ [] →
      configHasState config = true) ∧
    (∀ ps, ((config.get "state").get "ohlcv" = .undefined ∨
            (config.get "state").get "ohlcv" = .array []) →
      (config.get "state").get "primary" = .array ps → ps ≠ [] →
      configHasState config = true) ∧
    ((config.get "state" = .object [] ∨ config.get "state" = .undefined) →
      configHasState config = false) ∧
    (configHasState config = true → refreshDelay config = 500) ∧
    (configHasState config = false → refreshDelay config = 100) := by
  have htruthy : ∀ key w, (config.get "state").get key = .array w →
      (config.get "state").truthy = true := by
    intro key w h
    cases hs : config.get "state" <;> rw [hs] at h <;> simp [JSVal.get] at h
    rfl
  have harr : ∀ w : List JSVal, w ≠ [] →
      ((JSVal.array w).truthy && (JSVal.array w).isArray &&
        decide ((JSVal.array w).arrayLength > 0)) = true := by
    intro w hne
    have hlen : 0 < w.length := List.length_pos.2 hne
    simp [JSVal.truthy, JSVal.isArray, JSVal.arrayLength, hlen]
  refine ⟨?_, ?_, ?_, ?_, ?_⟩
  · intro items h hne
    simp only [configHasState, htruthy _ _ h, h, harr items hne, if_true]
  · intro ps ho hp hne
    have hno : (((config.get "state").get "ohlcv").truthy &&
        ((config.get "state").get "ohlcv").isArray &&
        decide (((config.get "state").get "ohlcv").arrayLength > 0)) = false := by
      rcases ho with ho | ho <;> rw [ho] <;> rfl
    simp only [configHasState, htruthy _ _ hp, hno, hp, harr ps hne, if_true,
      Bool.false_eq_true, if_false]
  · rintro (h | h)
    · simp only [configHasState, h]
      rfl
    · simp only [configHasState, h]
      rfl
  · intro h; simp [refreshDelay, h]
  · intro h; simp [refreshDelay, h]

/-- C11, on three configs: one with candles, one with primary entries only, one
with `state: {}`. -/
theorem configHasState_formats_witness :
    configHasState configWithOhlcv = true ∧ configHasState configWithPrimary = true ∧
    configHasState configEmptyState = false ∧ refreshDelay configEmptyState = 100 ∧
    refreshDelay configWithOhlcv = 500 := by
  have h1 := (configHasState_formats configWithOhlcv).1 _ rfl (by simp)
  have h2 := (configHasState_formats configWithPrimary).2.1 _ (Or.inr rfl) rfl (by simp)
  have h3 := (configHasState_formats configEmptyState).2.2.1 (Or.inl rfl)
  exact ⟨h1, h2, h3, (configHasState_formats configEmptyState).2.2.2.2 h3,
    (configHasState_formats configWithOhlcv).2.2.2.1 h1⟩

/-- C12: `isChartDataReady(chart)` returns `true` exactly when `chart` is
present, `chart.state` is present and `chart.state.ohlcv` is an array with at
least one element, and `false` in every other case; the function is total. -/
theorem isChartDataReady_iff (chart : Option ChartSnap) :
    (isChartDataReady chart = true ↔
      ∃ c st n, chart = some c ∧ c.state = some st ∧ st.ohlcv = ArrayProp.array n ∧ 1 ≤ n) ∧
    (isChartDataReady chart = false ↔
      ¬ ∃ c st n, chart = some c ∧ c.state = some st ∧ st.ohlcv = ArrayProp.array n ∧ 1 ≤ n) := by
  have key : isChartDataReady chart = true ↔
      ∃ c st n, chart = some c ∧ c.state = some st ∧ st.ohlcv = ArrayProp.array n ∧ 1 ≤ n := by
    constructor
    · intro h
      unfold isChartDataReady at h
      split at h
      · simp at h
      · rename_i c
        split at h
        · simp at h
        · rename_i st hst
          split at h
          · simp at h
          · simp at h
          · rename_i n hn
            refine ⟨c, st, n, rfl, hst, hn, ?_⟩
            by_cases h0 : n = 0
            · simp [h0] at h
            · omega
    · rintro ⟨c, st, n, rfl, hst, hn, h1⟩
      have h0 : n ≠ 0 := by omega
      simp [isChartDataReady, hst, hn, h0]
  refine ⟨key, ?_⟩
  rw [← key]
  simp

/-- C12, on a chart with two candles, a chart without state and no chart. -/
theorem isChartDataReady_iff_witness :
    isChartDataReady (some readyChart) = true ∧ isChartDataReady (some blankChart) = false ∧
    isChartDataReady none = false :=
  ⟨(isChartDataReady_iff (some readyChart)).1.2 ⟨readyChart, _, 2, rfl, rfl, rfl, by decide⟩,
   (isChartDataReady_iff (some blankChart)).2.2 (by rintro ⟨c, st, n, hc, hs, _⟩; cases hc; cases hs),
   (isChartDataReady_iff none).2.2 (by rintro ⟨c, st, n, hc, _⟩; cases hc)⟩


/-! ### The chart registry -/

theorem addChart_chartNum_eq (m : Bool) (w : Window) :
    (addChart m w).chartNum = orElse w.chartCount 0 + 1 ∧
    (addChart m w).window.chartCount = some (orElse w.chartCount 0 + 1) := by
  unfold addChart
  cases m <;> exact ⟨rfl, rfl⟩

theorem addChartRegister_count (m sr : Bool) (r : Registry) :
    (addChartRegister m sr r).window.chartCount = some (orElse r.window.chartCount 0 + 1) := by
  unfold addChartRegister
  simp only []
  split
  · exact (addChart_chartNum_eq m r.window).2
  · split <;> exact (addChart_chartNum_eq m r.window).2

theorem addChartRegister_charts (m sr : Bool) (r : Registry) (k : Nat) :
    (addChartRegister m sr r).charts k = r.charts k ∨
    (k = orElse r.window.chartCount 0 ∧
      (addChartRegister m sr r).charts k = some (orElse r.window.chartCount 0 + 1)) := by
  unfold addChartRegister
  simp only []
  split
  · exact Or.inl rfl
  · split
    · exact Or.inl rfl
    · simp only [(addChart_chartNum_eq m r.window).1, Nat.add_sub_cancel]
      by_cases hk : k = orElse r.window.chartCount 0
      · exact Or.inr ⟨hk, by simp [hk]⟩
      · exact Or.inl (by simp [hk])

theorem addChartRegister_stores (sr : Bool) (r : Registry) (hsr : sr = false) :
    (addChartRegister true sr r).charts (orElse r.window.chartCount 0) =
      some (orElse r.window.chartCount 0 + 1) := by
  have hsel : ∃ e, (addChart true r.window).selected = some e := by
    have hlt : (orElse r.window.chartCount 0 + 1 - 1) % configs.length < configs.length :=
      Nat.mod_lt _ (by decide)
    exact ⟨_, by simp only [addChart, Bool.not_true, Bool.false_eq_true, if_false]
                 exact List.getElem?_eq_getElem hlt⟩
  obtain ⟨e, he⟩ := hsel
  unfold addChartRegister
  simp only [he, hsr, Bool.false_eq_true, if_false, (addChart_chartNum_eq true r.window).1,
    Nat.add_sub_cancel, if_true]

theorem registryAfter_invariant (m : Bool) (raises : List Bool) :
    orElse (registryAfter m raises).window.chartCount 0 = raises.length ∧
    ∀ k c, (registryAfter m raises).charts k = some c → c = k + 1 ∧ c ≤ raises.length := by
  induction raises using List.reverseRecOn with
  | nil => exact ⟨rfl, fun k c h => by simp [registryAfter, Registry.initial] at h⟩
  | append_singleton rs sr ih =>
    obtain ⟨ih1, ih2⟩ := ih
    have hstep : registryAfter m (rs ++ [sr]) = addChartRegister m sr (registryAfter m rs) := by
      simp [registryAfter, List.foldl_append]
    rw [hstep]
    refine ⟨?_, ?_⟩
    · rw [addChartRegister_count, ih1]
      simp [orElse]
    · intro k c h
      rcases addChartRegister_charts m sr (registryAfter m rs) k with h1 | ⟨hk, h1⟩
      · rw [h1] at h
        obtain ⟨hc, hle⟩ := ih2 k c h
        exact ⟨hc, by simp; omega⟩
      · rw [h1, ih1] at h
        rw [ih1] at hk
        simp only [Option.some.injEq] at h
        exact ⟨by omega, by simp; omega⟩

/-- C18: every `addChart` call raises the counter by exactly 1, whether it
registers a chart or not; on a page with a `main` element the call numbered `n`
(the one after `n - 1` earlier calls) whose `chart.start` does not raise stores
its chart under `"chart" + (n - 1)`; in every registry reached by `addChart`
calls the key `"chart" + k` can only hold the chart of call `k + 1`, so two calls
never write the same key, and a further `addChart` leaves every registered
chart in place. -/
theorem addChart_registry (m : Bool) (raises : List Bool) (sr : Bool) :
    (∀ r : Registry, orElse (addChartRegister m sr r).window.chartCount 0 =
      orElse r.window.chartCount 0 + 1) ∧
    (registryAfter m (raises ++ [sr])).window.chartCount = some (raises.length + 1) ∧
    (registryAfter true (raises ++ [false])).charts (raises.length + 1 - 1) =
      some (raises.length + 1) ∧
    (∀ k c, (registryAfter m raises).charts k = some c → c = k + 1 ∧ c ≤ raises.length) ∧
    (∀ k c, (registryAfter m raises).charts k = some c →
      (registryAfter m (raises ++ [sr])).charts k = some c) := by
  have hstep : ∀ b s, registryAfter b (raises ++ [s]) =
      addChartRegister b s (registryAfter b raises) := by
    intro b s
    simp [registryAfter, List.foldl_append]
  refine ⟨?_, ?_, ?_, (registryAfter_invariant m raises).2, ?_⟩
  · intro r
    rw [addChartRegister_count]
    simp [orElse]
  · rw [hstep, addChartRegister_count, (registryAfter_invariant m raises).1]
  · rw [hstep, Nat.add_sub_cancel]
    have h := addChartRegister_stores false (registryAfter true raises) rfl
    rwa [(registryAfter_invariant true raises).1] at h
  · intro k c h
    rw [hstep]
    obtain ⟨hc, hle⟩ := (registryAfter_invariant m raises).2 k c h
    rcases addChartRegister_charts m sr (registryAfter m raises) k with h1 | ⟨hk, _⟩
    · rw [h1]; exact h
    · rw [(registryAfter_invariant m raises).1] at hk
      omega

/-- C18, on three calls of which the second fails in `chart.start`: the counter
is 3, `chart0` and `chart2` are registered, `chart1` is not. -/
theorem addChart_registry_witness :
    (registryAfter true ([false, true] ++ [false])).window.chartCount = some 3 ∧
    (registryAfter true ([false, true] ++ [false])).charts 2 = some 3 ∧
    (registryAfter true ([false, true] ++ [false])).charts 0 = some 1 :=
  ⟨(addChart_registry true [false, true] false).2.1,
   (addChart_registry true [false, true] false).2.2.1,
   (addChart_registry true [false, true] false).2.2.2.2 0 1 (by decide)⟩


/-! ### The real-time data switch -/

theorem disableRealTimeData_enabled (chart0 : Option Chart0Snap) (s : Realtime) :
    (disableRealTimeData chart0 s).state.realtimeDataEnabled = false := by
  unfold disableRealTimeData
  by_cases h : s.realtimeDataEnabled = true
  · simp [h]
  · simp only [Bool.not_eq_true] at h
    simp [h]

/-- C13: `getRealTimeDataStatus()` is `false` on the freshly loaded page, and for
every page state (so for every state reached by `addChart`,
`enableRealTimeData` and `disableRealTimeData` calls) an operation that takes
the flag from `false` to `true` is an `enableRealTimeData` call that returns
`true`. -/
theorem realtime_off_by_default (mainPresent : Bool) (ops : List PageOp) (op : PageOp) :
    getRealTimeDataStatus Page.initial.realtime = false ∧
    (∀ p : Page, getRealTimeDataStatus p.realtime = false →
      getRealTimeDataStatus (Page.step mainPresent op p).realtime = true →
      ∃ src c, op = PageOp.enableRealTimeData src c ∧
        (enableRealTimeData src (p.chart0 c) p.realtime).returned = true) ∧
    (getRealTimeDataStatus (Page.run mainPresent ops).realtime = false →
      getRealTimeDataStatus (Page.run mainPresent (ops ++ [op])).realtime = true →
      ∃ src c, op = PageOp.enableRealTimeData src c ∧
        (enableRealTimeData src ((Page.run mainPresent ops).chart0 c)
          (Page.run mainPresent ops).realtime).returned = true) := by
  have key : ∀ p : Page, getRealTimeDataStatus p.realtime = false →
      getRealTimeDataStatus (Page.step mainPresent op p).realtime = true →
      ∃ src c, op = PageOp.enableRealTimeData src c ∧
        (enableRealTimeData src (p.chart0 c) p.realtime).returned = true := by
    intro p h0 h1
    cases op with
    | addChart sr =>
      simp only [Page.step, getRealTimeDataStatus] at h0 h1
      rw [h0] at h1
      exact absurd h1 (by decide)
    | disableRealTimeData c =>
      simp only [Page.step, getRealTimeDataStatus] at h1
      rw [disableRealTimeData_enabled] at h1
      exact absurd h1 (by decide)
    | enableRealTimeData src c =>
      refine ⟨src, c, rfl, ?_⟩
      simp only [Page.step, getRealTimeDataStatus] at h0 h1
      unfold enableRealTimeData at h1 ⊢
      split at h1
      · rw [h0] at h1; exact absurd h1 (by decide)
      · simp only [h0, Bool.false_eq_true, if_false] at h1 ⊢
        split at h1
        · rw [h0] at h1; exact absurd h1 (by decide)
        · split at h1
          · rw [h0] at h1; exact absurd h1 (by decide)
          · split at h1
            · simp only [h0] at h1; exact absurd h1 (by decide)
            · rename_i hds _ _ hst hon
              simp only [hds, hst, hon, Bool.false_eq_true, if_false]
  refine ⟨rfl, key, ?_⟩
  intro h0 h1
  have hrun : Page.run mainPresent (ops ++ [op]) =
      Page.step mainPresent op (Page.run mainPresent ops) := by
    simp [Page.run, List.foldl_append]
  rw [hrun] at h1
  exact key _ h0 h1

/-- C13, on the page after one `addChart`: enabling on a live chart turns the
flag on, and the call returned `true`. -/
theorem realtime_off_by_default_witness :
    ∃ src c, PageOp.enableRealTimeData true liveChart0 = PageOp.enableRealTimeData src c ∧
      (enableRealTimeData src ((Page.run true [PageOp.addChart false]).chart0 c)
        (Page.run true [PageOp.addChart false]).realtime).returned = true :=
  (realtime_off_by_default true [PageOp.addChart false]
    (PageOp.enableRealTimeData true liveChart0)).2.2 rfl rfl


/-- C14 as stated fails.  After `addChart` and a successful
`enableRealTimeData`, real-time data is enabled and a ticker handle is stored;
when `chart0` has meanwhile been restarted with a state without data source, the
call of `disableRealTimeData` does not call `stopTicker()` and the stored ticker
reference is not `null` afterwards (the flag is `false`).  When
`startTickerHistory` returned `undefined`, real-time data is enabled with a
falsy reference and `stopTicker()` is not called either.  When `stopTicker()`
raises, it has been called once but the reference is not reset. -/
theorem disableRealTimeData_counterexample :
    getRealTimeDataStatus
      (Page.run true [PageOp.addChart false, PageOp.enableRealTimeData true liveChart0]).realtime
      = true ∧
    RtEvent.stopTicker ∉ (disableRealTimeData (some bareChart0)
      (Page.run true [PageOp.addChart false,
        PageOp.enableRealTimeData true liveChart0]).realtime).events ∧
    (disableRealTimeData (some bareChart0)
      (Page.run true [PageOp.addChart false,
        PageOp.enableRealTimeData true liveChart0]).realtime).state.realtimeDataTicker.truthy
      = true ∧
    getRealTimeDataStatus (disableRealTimeData (some bareChart0)
      (Page.run true [PageOp.addChart false,
        PageOp.enableRealTimeData true liveChart0]).realtime).state = false ∧
    getRealTimeDataStatus
      (Page.run true [PageOp.addChart false, PageOp.enableRealTimeData true silentChart0]).realtime
      = true ∧
    (disableRealTimeData (some silentChart0)
      (Page.run true [PageOp.addChart false,
        PageOp.enableRealTimeData true silentChart0]).realtime).events.count RtEvent.stopTicker
      = 0 ∧
    (disableRealTimeData (some stuckChart0) enabledRealtime).events.count RtEvent.stopTicker
      = 1 ∧
    (disableRealTimeData (some stuckChart0) enabledRealtime).state.realtimeDataTicker.truthy
      = true := by
  have hrun : (Page.run true [PageOp.addChart false,
      PageOp.enableRealTimeData true liveChart0]).realtime = enabledRealtime := rfl
  have hrun2 : (Page.run true [PageOp.addChart false,
      PageOp.enableRealTimeData true silentChart0]).realtime =
      { realtimeDataEnabled := true, realtimeDataTicker := JSVal.undefined } := rfl
  rw [hrun, hrun2]
  refine ⟨rfl, ?_, rfl, rfl, rfl, ?_, ?_, rfl⟩
  · simp [disableRealTimeData, enabledRealtime, bareChart0]
  · simp [disableRealTimeData, silentChart0, JSVal.truthy]
  · simp [disableRealTimeData, enabledRealtime, stuckChart0, JSVal.truthy]

/-- C14, amended: when real-time data is enabled, a call of
`disableRealTimeData` leaves `getRealTimeDataStatus()` false; it calls
`stopTicker()` exactly once when `chart0.state.dataSource` is present and the
stored ticker reference is truthy, whether the call raises or not, and not at
all otherwise; the stored reference is `null` afterwards when `stopTicker()` was
called and did not raise, and is left as it was in every other case; when
real-time data is already disabled the call changes nothing and does not call
`stopTicker()`. -/
theorem disableRealTimeData_stops (chart0 : Option Chart0Snap) (s : Realtime) :
    (s.realtimeDataEnabled = true →
      getRealTimeDataStatus (disableRealTimeData chart0 s).state = false) ∧
    (s.realtimeDataEnabled = true →
      ∀ ds, (chart0.bind (fun c => c.state)).bind (fun st => st.dataSource) = some ds →
        s.realtimeDataTicker.truthy = true →
        (disableRealTimeData chart0 s).events.count RtEvent.stopTicker = 1 ∧
        (ds.stopTickerRaises = false →
          (disableRealTimeData chart0 s).state.realtimeDataTicker = JSVal.null) ∧
        (ds.stopTickerRaises = true →
          (disableRealTimeData chart0 s).state.realtimeDataTicker = s.realtimeDataTicker)) ∧
    (s.realtimeDataEnabled = true →
      ((chart0.bind (fun c => c.state)).bind (fun st => st.dataSource) = none ∨
        s.realtimeDataTicker.truthy = false) →
      (disableRealTimeData chart0 s).events.count RtEvent.stopTicker = 0 ∧
      (disableRealTimeData chart0 s).state.realtimeDataTicker = s.realtimeDataTicker) ∧
    (s.realtimeDataEnabled = false →
      (disableRealTimeData chart0 s).state = s ∧
      (disableRealTimeData chart0 s).events.count RtEvent.stopTicker = 0) := by
  refine ⟨fun _ => disableRealTimeData_enabled chart0 s, ?_, ?_, ?_⟩
  · intro he ds hds ht
    cases hr : ds.stopTickerRaises
    · simp only [disableRealTimeData, he, Bool.not_true, Bool.false_eq_true, if_false, hds, ht,
        if_true, hr]
      simp
    · simp only [disableRealTimeData, he, Bool.not_true, Bool.false_eq_true, if_false, hds, ht,
        if_true, hr]
      simp
  · intro he h
    rcases h with h | h
    · simp only [disableRealTimeData, he, Bool.not_true, Bool.false_eq_true, if_false, h]
      simp
    · cases hds : (chart0.bind (fun c => c.state)).bind (fun st => st.dataSource) with
      | none =>
        simp only [disableRealTimeData, he, Bool.not_true, Bool.false_eq_true, if_false, hds]
        simp
      | some ds =>
        simp only [disableRealTimeData, he, Bool.not_true, Bool.false_eq_true, if_false, hds, h]
        simp
  · intro he
    simp only [disableRealTimeData, he, Bool.not_false, if_true]
    constructor <;> trivial

/-- C14 amended, on an enabled state and a live chart: `stopTicker()` is called
once and the reference is reset. -/
theorem disableRealTimeData_stops_witness :
    (disableRealTimeData (some liveChart0) enabledRealtime).events.count RtEvent.stopTicker = 1 ∧
    (disableRealTimeData (some liveChart0) enabledRealtime).state.realtimeDataTicker =
      JSVal.null :=
  ⟨((disableRealTimeData_stops (some liveChart0) enabledRealtime).2.1 rfl _ rfl rfl).1,
   ((disableRealTimeData_stops (some liveChart0) enabledRealtime).2.1 rfl _ rfl rfl).2.1 rfl⟩

/-- C15: when real-time data is already enabled and `chart0` exists, a call of
`enableRealTimeData` returns `true`, makes no call at all besides the log entry
(so neither `startTickerHistory` nor `chart0.on`), and leaves both module
variables unchanged. -/
theorem enableRealTimeData_idempotent (src : Bool) (c : Chart0Snap) (s : Realtime)
    (h : s.realtimeDataEnabled = true) :
    (enableRealTimeData src (some c) s).returned = true ∧
    (enableRealTimeData src (some c) s).events = [RtEvent.log "Real-time data is already enabled"] ∧
    RtEvent.startTickerHistory ∉ (enableRealTimeData src (some c) s).events ∧
    (∀ e, RtEvent.listen e ∉ (enableRealTimeData src (some c) s).events) ∧
    (enableRealTimeData src (some c) s).state = s := by
  have hev : (enableRealTimeData src (some c) s).events =
      [RtEvent.log "Real-time data is already enabled"] := by
    simp only [enableRealTimeData, h, if_true]
  refine ⟨by simp only [enableRealTimeData, h, if_true], hev, ?_, ?_,
    by simp only [enableRealTimeData, h, if_true]⟩
  · rw [hev]; simp
  · intro e; rw [hev]; simp

/-- C15, on an enabled state and a live chart. -/
theorem enableRealTimeData_idempotent_witness :
    (enableRealTimeData true (some liveChart0) enabledRealtime).returned = true ∧
    (enableRealTimeData true (some liveChart0) enabledRealtime).state = enabledRealtime :=
  ⟨(enableRealTimeData_idempotent true liveChart0 enabledRealtime rfl).1,
   (enableRealTimeData_idempotent true liveChart0 enabledRealtime rfl).2.2.2.2⟩

/-- C16 as stated fails: real-time data is already enabled and `chart0.state` is
missing; the call returns `true`, not `false` (it changes nothing). -/
theorem enableRealTimeData_counterexample :
    bareChart0.state.isNone = true ∧
    (enableRealTimeData true (some bareChart0) enabledRealtime).returned = true := by
  exact ⟨rfl, rfl⟩

/-- C16, amended: when `window.chart0` is missing, or when real-time data is not
already enabled and `chart0.state` or `chart0.state.dataSource` is missing or
`startTickerHistory` raises, the call returns `false` (every path of the
function returns) and leaves `realtimeDataEnabled` and the stored ticker
reference as they were. -/
theorem enableRealTimeData_fails (src : Bool) (chart0 : Option Chart0Snap) (s : Realtime)
    (h : chart0 = none ∨
      (s.realtimeDataEnabled = false ∧
        ∃ c, chart0 = some c ∧
          (c.state.bind (fun st => st.dataSource) = none ∨
           ∃ ds, c.state.bind (fun st => st.dataSource) = some ds ∧
             ds.startTickerHistory = Outcome.raises))) :
    (enableRealTimeData src chart0 s).returned = false ∧
    (enableRealTimeData src chart0 s).state = s := by
  rcases h with h | ⟨he, c, hc, h | ⟨ds, hds, hr⟩⟩
  · subst h
    exact ⟨rfl, rfl⟩
  · subst hc
    simp only [enableRealTimeData, he, Bool.false_eq_true, if_false, h]
    exact ⟨trivial, trivial⟩
  · subst hc
    simp only [enableRealTimeData, he, Bool.false_eq_true, if_false, hds, hr]
    exact ⟨trivial, trivial⟩

/-- C16 amended, on the initial state and a chart without state. -/
theorem enableRealTimeData_fails_witness :
    (enableRealTimeData true (some bareChart0) Realtime.initial).returned = false ∧
    (enableRealTimeData true (some bareChart0) Realtime.initial).state = Realtime.initial :=
  enableRealTimeData_fails true (some bareChart0) Realtime.initial
    (Or.inr ⟨rfl, bareChart0, rfl, Or.inl rfl⟩)

/-! ### The range-limit callbacks -/

/-- C17 as stated fails: when `onRangeLimit2` rejects with the reason
`undefined` (or `null`), reading `err.message` raises inside the handler and the
promise of the callback rejects. -/
theorem rangeLimit_counterexample :
    rangeLimitPast (Settled.rejected JSVal.undefined) = Settled.rejected typeError ∧
    rangeLimitFuture (Settled.rejected JSVal.null) = Settled.rejected typeError :=
  ⟨rfl, rfl⟩

/-- C17, amended: when `onRangeLimit2` rejects with a reason other than
`undefined` and `null`, the promises of `rangeLimitPast` and `rangeLimitFuture`
resolve to `{ ohlcv: [] }`; when `onRangeLimit2` resolves, they resolve to the
same value. -/
theorem rangeLimit_fallback (reason value : JSVal)
    (h1 : reason ≠ JSVal.undefined) (h2 : reason ≠ JSVal.null) :
    rangeLimitPast (Settled.rejected reason) =
      Settled.resolved (JSVal.object [("ohlcv", JSVal.array [])]) ∧
    rangeLimitFuture (Settled.rejected reason) =
      Settled.resolved (JSVal.object [("ohlcv", JSVal.array [])]) ∧
    rangeLimitPast (Settled.resolved value) = Settled.resolved value ∧
    rangeLimitFuture (Settled.resolved value) = Settled.resolved value := by
  have h : fallbackHandler reason = .ok (JSVal.object [("ohlcv", JSVal.array [])]) := by
    cases reason <;> first | exact absurd rfl h1 | exact absurd rfl h2 | rfl
  refine ⟨?_, ?_, rfl, rfl⟩
  · simp only [rangeLimitPast, Settled.catch, h]
  · simp only [rangeLimitFuture, Settled.catch, h]

/-- C17 amended, on a failed fetch. -/
theorem rangeLimit_fallback_witness :
    rangeLimitPast (Settled.rejected networkError) =
      Settled.resolved (JSVal.object [("ohlcv", JSVal.array [])]) :=
  (rangeLimit_fallback networkError JSVal.null (by simp [networkError])
    (by simp [networkError])).1


/-! ### The Apply button -/

theorem lookupProp_truthy_iff (fields : List (String × JSVal)) (name : String)
    (hall : ∀ p, p ∈ fields → p.2.truthy = true) (hname : name ∉ objectPrototypeNames) :
    (lookupProp fields name).truthy = true ↔ name ∈ fields.map (fun p => p.1) := by
  induction fields with
  | nil =>
    simp [lookupProp, hname, JSVal.truthy]
  | cons p ps ih =>
    obtain ⟨k, v⟩ := p
    have ih' := ih (fun q hq => hall q (List.mem_cons_of_mem _ hq))
    by_cases hk : name = k
    · subst hk
      have hv : v.truthy = true := hall (name, v) (List.mem_cons_self _ _)
      simp [lookupProp, List.lookup, hv]
    · have hbeq : (name == k) = false := by simpa using hk
      have hstep : lookupProp ((k, v) :: ps) name = lookupProp ps name := by
        simp [lookupProp, List.lookup, hbeq]
      rw [hstep, ih']
      simp [hk]

theorem lookupProp_of_lookup (fields : List (String × JSVal)) (name : String) (v : JSVal)
    (h : fields.lookup name = some v) : lookupProp fields name = v := by
  simp [lookupProp, h]

theorem states_truthy (f : Fixtures) : ∀ p, p ∈ f.states → p.2.truthy = true := by
  intro p hp
  simp only [Fixtures.states, List.mem_cons, List.mem_singleton, List.not_mem_nil, or_false] at hp
  rcases hp with h | h | h <;> subst h <;> rfl

theorem cfgs_truthy (f : Fixtures) : ∀ p, p ∈ f.cfgs → p.2.truthy = true := by
  intro p hp
  simp only [Fixtures.cfgs, List.mem_cons, List.mem_singleton, List.not_mem_nil, or_false] at hp
  rcases hp with h | h | h | h | h | h | h | h | h <;> subst h <;> rfl

/-- C19 as stated fails: with the state name `constructor`, which is not one of
`state1`, `state2`, `state3`, the lookup `states[selectedState]` finds the
function inherited from `Object.prototype`, and the handler calls
`chart0.start` with that function as the state instead of reporting
'Config not found'. -/
theorem applyConfig_counterexample :
    "constructor" ∉ stateNames ∧
    (applyConfig sampleFixtures JSVal.null (JSVal.str "wasm") (some "constructor")
        (some "config1") false false).events.any PanelEvent.isStart = true ∧
    (applyConfig sampleFixtures JSVal.null (JSVal.str "wasm") (some "constructor")
        (some "config1") false false).events.head? =
      some (PanelEvent.updateStatus "loading" "Applying...") ∧
    (applyConfig sampleFixtures JSVal.null (JSVal.str "wasm") (some "constructor")
        (some "config1") false false).events.tail.head? =
      some (PanelEvent.start (JSVal.object
        [("title", JSVal.str "one"), ("state", JSVal.func), ("talib", JSVal.null),
         ("wasm", JSVal.str "wasm")])) := by
  refine ⟨by decide, ?_, ?_, ?_⟩ <;> rfl

/-- C19, amended: for selected names (after the defaults `state1` and `config1`)
that are not names of properties inherited from `Object.prototype`, the handler
calls `chart0.start` if and only if the state name is one of `state1`, `state2`,
`state3` and the config name one of `config1`..`config8`, `dre`; it then calls
it once, right after the 'loading' status, with the selected config whose
`state` is replaced by the selected state and `talib`, `wasm` set; otherwise
the events are the 'loading' status and the status 'error' with text
'Config not found'.  The objects `cfgs` and `states` are left as they were. -/
theorem applyConfig_resolves (f : Fixtures) (talib wasm : JSVal)
    (stateValue configValue : Option String) (startRaises refreshRaises : Bool)
    (hs : selectedName stateValue "state1" ∉ objectPrototypeNames)
    (hc : selectedName configValue "config1" ∉ objectPrototypeNames) :
    ((applyConfig f talib wasm stateValue configValue startRaises refreshRaises).events.any
        PanelEvent.isStart = true ↔
      (selectedName stateValue "state1" ∈ stateNames ∧
       selectedName configValue "config1" ∈ configNames)) ∧
    (selectedName stateValue "state1" ∈ stateNames →
      selectedName configValue "config1" ∈ configNames →
      ∃ state config rest,
        f.states.lookup (selectedName stateValue "state1") = some state ∧
        f.cfgs.lookup (selectedName configValue "config1") = some config ∧
        (applyConfig f talib wasm stateValue configValue startRaises refreshRaises).events =
          PanelEvent.updateStatus "loading" "Applying..." ::
            PanelEvent.start (newConfigOf config state talib wasm) :: rest ∧
        rest.any PanelEvent.isStart = false) ∧
    (¬ (selectedName stateValue "state1" ∈ stateNames ∧
        selectedName configValue "config1" ∈ configNames) →
      (applyConfig f talib wasm stateValue configValue startRaises refreshRaises).events =
        [PanelEvent.updateStatus "loading" "Applying...",
         PanelEvent.updateStatus "error" "Config not found"]) ∧
    (applyConfig f talib wasm stateValue configValue startRaises refreshRaises).cfgs = f.cfgs ∧
    (applyConfig f talib wasm stateValue configValue startRaises refreshRaises).states =
      f.states := by
  have hst := lookupProp_truthy_iff f.states _ (states_truthy f) hs
  have hcf := lookupProp_truthy_iff f.cfgs _ (cfgs_truthy f) hc
  have hsn : f.states.map (fun p => p.1) = stateNames := rfl
  have hcn : f.cfgs.map (fun p => p.1) = configNames := rfl
  rw [hsn] at hst
  rw [hcn] at hcf
  have hfound : (selectedName stateValue "state1" ∈ stateNames ∧
      selectedName configValue "config1" ∈ configNames) →
      ((lookupProp f.states (selectedName stateValue "state1")).truthy &&
        (lookupProp f.cfgs (selectedName configValue "config1")).truthy) = true := by
    rintro ⟨h1, h2⟩
    rw [hst.2 h1, hcf.2 h2]
    rfl
  have hmissing : ¬ (selectedName stateValue "state1" ∈ stateNames ∧
      selectedName configValue "config1" ∈ configNames) →
      ((lookupProp f.states (selectedName stateValue "state1")).truthy &&
        (lookupProp f.cfgs (selectedName configValue "config1")).truthy) = false := by
    intro h
    by_contra hne
    have hb : ((lookupProp f.states (selectedName stateValue "state1")).truthy &&
        (lookupProp f.cfgs (selectedName configValue "config1")).truthy) = true := by
      simpa using hne
    rw [Bool.and_eq_true] at hb
    exact h ⟨hst.1 hb.1, hcf.1 hb.2⟩
  refine ⟨?_, ?_, ?_, rfl, rfl⟩
  · by_cases h : selectedName stateValue "state1" ∈ stateNames ∧
        selectedName configValue "config1" ∈ configNames
    · simp only [h, and_self, iff_true]
      simp only [applyConfig, hfound h, if_true]
      cases startRaises <;> cases refreshRaises <;> rfl
    · simp only [h, iff_false]
      simp only [applyConfig, hmissing h]
      simp [PanelEvent.isStart]
  · intro h1 h2
    have hl1 : ∃ state, f.states.lookup (selectedName stateValue "state1") = some state := by
      simp only [stateNames, List.mem_cons, List.mem_singleton, List.not_mem_nil, or_false] at h1
      rcases h1 with h | h | h <;> rw [h] <;> exact ⟨_, rfl⟩
    have hl2 : ∃ config, f.cfgs.lookup (selectedName configValue "config1") = some config := by
      simp only [configNames, List.mem_cons, List.mem_singleton, List.not_mem_nil, or_false] at h2
      rcases h2 with h | h | h | h | h | h | h | h | h <;> rw [h] <;> exact ⟨_, rfl⟩
    obtain ⟨st, hl1⟩ := hl1
    obtain ⟨cf, hl2⟩ := hl2
    have e1 := lookupProp_of_lookup _ _ _ hl1
    have e2 := lookupProp_of_lookup _ _ _ hl2
    have hf := hfound ⟨h1, h2⟩
    rw [e1, e2] at hf
    cases startRaises <;> cases refreshRaises
    · exact ⟨st, cf, [PanelEvent.refresh, PanelEvent.updateStatus "success" "Applied successfully"],
        hl1, hl2, by simp only [applyConfig, e1, e2, hf, if_true]; rfl, rfl⟩
    · exact ⟨st, cf, [PanelEvent.refresh, PanelEvent.updateStatus "error" "Error occurred"],
        hl1, hl2, by simp only [applyConfig, e1, e2, hf, if_true]; rfl, rfl⟩
    · exact ⟨st, cf, [PanelEvent.updateStatus "error" "Error occurred"],
        hl1, hl2, by simp only [applyConfig, e1, e2, hf, if_true], rfl⟩
    · exact ⟨st, cf, [PanelEvent.updateStatus "error" "Error occurred"],
        hl1, hl2, by simp only [applyConfig, e1, e2, hf, if_true], rfl⟩
  · intro h
    simp only [applyConfig, hmissing h]
    rfl

/-- C19 amended, on the defaults (no selector value) and on an unknown state
name. -/
theorem applyConfig_resolves_witness :
    (applyConfig sampleFixtures JSVal.null (JSVal.str "wasm") none (some "")
        false false).events.any PanelEvent.isStart = true ∧
    (applyConfig sampleFixtures JSVal.null (JSVal.str "wasm") (some "state4") (some "config2")
        false false).events =
      [PanelEvent.updateStatus "loading" "Applying...",
       PanelEvent.updateStatus "error" "Config not found"] :=
  ⟨(applyConfig_resolves sampleFixtures JSVal.null (JSVal.str "wasm") none (some "") false false
      (by decide) (by decide)).1.2 ⟨by decide, by decide⟩,
   (applyConfig_resolves sampleFixtures JSVal.null (JSVal.str "wasm") (some "state4")
      (some "config2") false false (by decide) (by decide)).2.2.1 (by decide)⟩


/-! ### `DIAGNOSTICS.log` -/

theorem log_text_returns (d : Diagnostics) (timestamp message s : String) :
    (d.log timestamp message (.text s)).raised = none := by
  unfold Diagnostics.log
  split_ifs
  · rfl
  · simp only [toUpperCase]
    split <;> rfl

theorem log_record_raises (d : Diagnostics) (timestamp message : String) (keys : List String)
    (h : d.enabled = true) :
    d.log timestamp message (.record keys) =
      { diag := d, raised := some "TypeError: type.toUpperCase is not a function" } := by
  simp [Diagnostics.log, h, toUpperCase]

/-- C20, the code at a failing input: with diagnostics enabled, the final check
on a chart without data records the warning and then calls
`DIAGNOSTICS.log(message, { ... })` with an object where the type is expected;
`type.toUpperCase()` raises a `TypeError`, no diagnostic-info entry is written
and the branch does not return normally.  Every call of `log` with a string
type returns. -/
theorem finalBranchLog_raises :
    (finalCheck blankChart).chartHasData = false ∧
    (finalBranchLog Diagnostics.initial "7.500s" 1 "Basic Chart" blankChart).raised =
      some "TypeError: type.toUpperCase is not a function" ∧
    (finalBranchLog Diagnostics.initial "7.500s" 1 "Basic Chart" blankChart).diag.warnings =
      [("7.500s", "Chart 1 may have data loading issues. Config: Basic Chart")] ∧
    (finalBranchLog Diagnostics.initial "7.500s" 1 "Basic Chart" blankChart).diag.console.length =
      1 ∧
    (∀ (d : Diagnostics) (chartNum : Nat) (timestamp description : String) (chart : ChartSnap),
      d.enabled = true → (finalCheck chart).chartHasData = false →
      (finalBranchLog d timestamp chartNum description chart).raised =
        some "TypeError: type.toUpperCase is not a function") ∧
    (∀ (d : Diagnostics) (timestamp message s : String),
      (d.log timestamp message (.text s)).raised = none) := by
  refine ⟨by decide, by decide, by decide, by decide, ?_, log_text_returns⟩
  intro d chartNum timestamp description chart hd hc
  have hw : ∀ m, (d.warn timestamp m).raised = none := fun m => log_text_returns d _ m _
  have hen : ∀ m, (d.warn timestamp m).diag.enabled = true := by
    intro m
    simp only [Diagnostics.warn, Diagnostics.log, hd, Bool.not_true, Bool.false_eq_true, if_false,
      toUpperCase]
  simp only [finalBranchLog, hc, Bool.false_eq_true, if_false, hw]
  rw [log_record_raises _ _ _ _ (hen _)]

end TradeX
